import Mathlib

/-!
# VectorArithmetic (`VA.h`): a shallow embedding and its checked properties

The header declares, in namespace `V`, nine value classes
(`Vector{2,3,4}{i,f,b}`) and free operators over the int and float ones:
`operator&` / `dot`, `operator+`, `operator*`, `magnitude_sqr`, `magnitude`
and the conversions `vecitof` / `vecftoi`.

Modelling choices.

* A C++ `int` is a Lean `Int`; every `int` operation reduces its exact result
  into the 32-bit two's-complement range with `wrapInt` (wraparound).  The
  predicate `isInt32` says that an exact value needs no reduction.
* A C++ `float` is an element of an arbitrary carrier `F` with operations
  `FloatArith F`: the conversion from `int`, the sum and the product.  No law
  is assumed of them, so what is proved for every `FloatArith` holds of any
  floating-point implementation.  `ℚ` with its exact operations is one
  instance; it agrees with binary32 whenever every intermediate value is
  representable, and is used to evaluate the code on small inputs.
* C++ overloads are told apart by their namespace (the vector operand) and a
  suffix: in a mixed overload `F` / `I` names the kind of the other operand,
  and `R` marks the vector-first order of `operator*`.
* The default arguments of the constructors are optional parameters of `new`.
* `sqrt`, which `magnitude` calls, is a parameter of `magnitude`; the
  properties of the exact square root are stated with `Real.sqrt`.
* `round` and `(int)`, which `vecftoi` calls, are the operations of
  `FloatRound F`.  `Binary32` is a concrete arithmetic with both classes: the
  binary32 values as rationals, every operation rounded to nearest-even on a
  24-bit significand.  What depends on how an `int` is converted to `float`
  and back is proved there.
-/

namespace V

/-! ## Machine integers -/

/-- The value a 32-bit two's-complement `int` holds after an operation whose
exact result is `z`. -/
def wrapInt (z : Int) : Int := (z + 2147483648) % 4294967296 - 2147483648

/-- The exact value `z` is representable as a 32-bit signed `int`. -/
def isInt32 (z : Int) : Prop := -2147483648 ≤ z ∧ z ≤ 2147483647

instance (z : Int) : Decidable (isInt32 z) := by
  unfold isInt32; infer_instance

/-- The `int * int` of C++, with wraparound. -/
def imul (a b : Int) : Int := wrapInt (a * b)

/-- The `int + int` of C++, with wraparound. -/
def iadd (a b : Int) : Int := wrapInt (a + b)

/-! ## Integer component vectors (`VA.h` 26-48) -/

/-- Class `Vector2i`: `int x, y`. -/
structure Vector2i where
  x : Int
  y : Int
  deriving DecidableEq, Repr

/-- Class `Vector3i : public Vector2i`: adds `int z`. -/
structure Vector3i extends Vector2i where
  z : Int
  deriving DecidableEq, Repr

/-- Class `Vector4i : public Vector3i`: adds `int w`. -/
structure Vector4i extends Vector3i where
  w : Int
  deriving DecidableEq, Repr

/-- Constructor `Vector2i(int init_x = 0, int init_y = 0)`. -/
def Vector2i.new (init_x : Int := 0) (init_y : Int := 0) : Vector2i := ⟨init_x, init_y⟩

/-- Constructor `Vector3i(int init_x = 0, int init_y = 0, int init_z = 0)`:
builds the `Vector2i` base, then `z`. -/
def Vector3i.new (init_x : Int := 0) (init_y : Int := 0) (init_z : Int := 0) : Vector3i :=
  ⟨Vector2i.new init_x init_y, init_z⟩

/-- Constructor
`Vector4i(int init_x = 0, int init_y = 0, int init_z = 0, int init_w = 0)`:
builds the `Vector3i` base, then `w`. -/
def Vector4i.new (init_x : Int := 0) (init_y : Int := 0) (init_z : Int := 0)
    (init_w : Int := 0) : Vector4i :=
  ⟨Vector3i.new init_x init_y init_z, init_w⟩

/-- Every component of the vector is a 32-bit signed `int`. -/
def Vector2i.valid (v : Vector2i) : Prop := isInt32 v.x ∧ isInt32 v.y

/-- Every component of the vector is a 32-bit signed `int`. -/
def Vector3i.valid (v : Vector3i) : Prop := isInt32 v.x ∧ isInt32 v.y ∧ isInt32 v.z

/-- Every component of the vector is a 32-bit signed `int`. -/
def Vector4i.valid (v : Vector4i) : Prop :=
  isInt32 v.x ∧ isInt32 v.y ∧ isInt32 v.z ∧ isInt32 v.w

/-- The exact products `v1.c * v2.c` and the exact partial sums of
`v1.x * v2.x + v1.y * v2.y`, in the order C++ evaluates them, are 32-bit signed
`int`s. -/
def Vector2i.dotFits (v1 v2 : Vector2i) : Prop :=
  isInt32 (v1.x * v2.x) ∧ isInt32 (v1.y * v2.y) ∧ isInt32 (v1.x * v2.x + v1.y * v2.y)

/-- The exact products `v1.c * v2.c` and the exact partial sums of
`v1.x * v2.x + v1.y * v2.y + v1.z * v2.z`, in the order C++ evaluates them, are
32-bit signed `int`s. -/
def Vector3i.dotFits (v1 v2 : Vector3i) : Prop :=
  isInt32 (v1.x * v2.x) ∧ isInt32 (v1.y * v2.y) ∧ isInt32 (v1.z * v2.z) ∧
  isInt32 (v1.x * v2.x + v1.y * v2.y) ∧
  isInt32 (v1.x * v2.x + v1.y * v2.y + v1.z * v2.z)

/-- The exact products `v1.c * v2.c` and the exact partial sums of
`v1.x * v2.x + v1.y * v2.y + v1.z * v2.z + v1.w * v2.w`, in the order C++
evaluates them, are 32-bit signed `int`s. -/
def Vector4i.dotFits (v1 v2 : Vector4i) : Prop :=
  isInt32 (v1.x * v2.x) ∧ isInt32 (v1.y * v2.y) ∧ isInt32 (v1.z * v2.z) ∧
  isInt32 (v1.w * v2.w) ∧
  isInt32 (v1.x * v2.x + v1.y * v2.y) ∧
  isInt32 (v1.x * v2.x + v1.y * v2.y + v1.z * v2.z) ∧
  isInt32 (v1.x * v2.x + v1.y * v2.y + v1.z * v2.z + v1.w * v2.w)

instance (v : Vector2i) : Decidable v.valid := by
  unfold Vector2i.valid; infer_instance

instance (v : Vector3i) : Decidable v.valid := by
  unfold Vector3i.valid; infer_instance

instance (v : Vector4i) : Decidable v.valid := by
  unfold Vector4i.valid; infer_instance

instance (v1 v2 : Vector2i) : Decidable (v1.dotFits v2) := by
  unfold Vector2i.dotFits; infer_instance

instance (v1 v2 : Vector3i) : Decidable (v1.dotFits v2) := by
  unfold Vector3i.dotFits; infer_instance

instance (v1 v2 : Vector4i) : Decidable (v1.dotFits v2) := by
  unfold Vector4i.dotFits; infer_instance

/-! ## Integer vector operations (`VA.h` 148-169) -/

/-- The `int operator&(Vector2i v1, Vector2i v2)`: `v1.x * v2.x + v1.y * v2.y`. -/
def Vector2i.opAnd (v1 v2 : Vector2i) : Int :=
  iadd (imul v1.x v2.x) (imul v1.y v2.y)

/-- The `int operator&(Vector3i v1, Vector3i v2)`. -/
def Vector3i.opAnd (v1 v2 : Vector3i) : Int :=
  iadd (iadd (imul v1.x v2.x) (imul v1.y v2.y)) (imul v1.z v2.z)

/-- The `int operator&(Vector4i v1, Vector4i v2)`. -/
def Vector4i.opAnd (v1 v2 : Vector4i) : Int :=
  iadd (iadd (iadd (imul v1.x v2.x) (imul v1.y v2.y)) (imul v1.z v2.z)) (imul v1.w v2.w)

/-- The `int dot(Vector2i v1, Vector2i v2)`: `v1 & v2`. -/
def Vector2i.dot (v1 v2 : Vector2i) : Int := v1.opAnd v2

/-- The `int dot(Vector3i v1, Vector3i v2)`: `v1 & v2`. -/
def Vector3i.dot (v1 v2 : Vector3i) : Int := v1.opAnd v2

/-- The `int dot(Vector4i v1, Vector4i v2)`: `v1 & v2`. -/
def Vector4i.dot (v1 v2 : Vector4i) : Int := v1.opAnd v2

/-- The `Vector2i operator+(Vector2i v1, Vector2i v2)`. -/
def Vector2i.opAdd (v1 v2 : Vector2i) : Vector2i :=
  Vector2i.new (iadd v1.x v2.x) (iadd v1.y v2.y)

/-- The `Vector3i operator+(Vector3i v1, Vector3i v2)`. -/
def Vector3i.opAdd (v1 v2 : Vector3i) : Vector3i :=
  Vector3i.new (iadd v1.x v2.x) (iadd v1.y v2.y) (iadd v1.z v2.z)

/-- The `Vector4i operator+(Vector4i v1, Vector4i v2)`. -/
def Vector4i.opAdd (v1 v2 : Vector4i) : Vector4i :=
  Vector4i.new (iadd v1.x v2.x) (iadd v1.y v2.y) (iadd v1.z v2.z) (iadd v1.w v2.w)

/-- The `Vector2i operator*(int scalar, Vector2i v1)`. -/
def Vector2i.opMul (scalar : Int) (v1 : Vector2i) : Vector2i :=
  Vector2i.new (imul scalar v1.x) (imul scalar v1.y)

/-- The `Vector3i operator*(int scalar, Vector3i v1)`. -/
def Vector3i.opMul (scalar : Int) (v1 : Vector3i) : Vector3i :=
  Vector3i.new (imul scalar v1.x) (imul scalar v1.y) (imul scalar v1.z)

/-- The `Vector4i operator*(int scalar, Vector4i v1)`. -/
def Vector4i.opMul (scalar : Int) (v1 : Vector4i) : Vector4i :=
  Vector4i.new (imul scalar v1.x) (imul scalar v1.y) (imul scalar v1.z) (imul scalar v1.w)

/-- The `Vector2i operator*(Vector2i v1, int scalar)`: `scalar * v1`. -/
def Vector2i.opMulR (v1 : Vector2i) (scalar : Int) : Vector2i := Vector2i.opMul scalar v1

/-- The `Vector3i operator*(Vector3i v1, int scalar)`: `scalar * v1`. -/
def Vector3i.opMulR (v1 : Vector3i) (scalar : Int) : Vector3i := Vector3i.opMul scalar v1

/-- The `Vector4i operator*(Vector4i v1, int scalar)`: `scalar * v1`. -/
def Vector4i.opMulR (v1 : Vector4i) (scalar : Int) : Vector4i := Vector4i.opMul scalar v1

/-- The `int magnitude_sqr(Vector2i v)`: `v & v`. -/
def Vector2i.magnitude_sqr (v : Vector2i) : Int := v.opAnd v

/-- The `int magnitude_sqr(Vector3i v)`: `v & v`. -/
def Vector3i.magnitude_sqr (v : Vector3i) : Int := v.opAnd v

/-- The `int magnitude_sqr(Vector4i v)`: `v & v`. -/
def Vector4i.magnitude_sqr (v : Vector4i) : Int := v.opAnd v

/-! ## Float component vectors (`VA.h` 51-73) -/

/-- The operations of C++ `float` that the header uses: the conversion
`(float)i` of an `int` (explicit, or implicit in a mixed `int`/`float`
expression), `+` and `*`.  No law is assumed. -/
class FloatArith (F : Type) where
  ofInt : Int → F
  add : F → F → F
  mul : F → F → F

/-- Arithmetic without rounding: the values are rationals and the operations
exact. -/
instance exactArith : FloatArith ℚ where
  ofInt := fun i => (i : ℚ)
  add := fun a b => a + b
  mul := fun a b => a * b

/-- Class `Vector2f`: `float x, y`. -/
structure Vector2f (F : Type) where
  x : F
  y : F
  deriving DecidableEq, Repr

/-- Class `Vector3f : public Vector2f`: adds `float z`. -/
structure Vector3f (F : Type) extends Vector2f F where
  z : F
  deriving DecidableEq, Repr

/-- Class `Vector4f : public Vector3f`: adds `float w`. -/
structure Vector4f (F : Type) extends Vector3f F where
  w : F
  deriving DecidableEq, Repr

/-- Constructor `Vector2f(float init_x = 0, float init_y = 0)`; the default
`0` is the `int` literal converted to `float`. -/
def Vector2f.new {F : Type} [FloatArith F] (init_x : F := FloatArith.ofInt 0)
    (init_y : F := FloatArith.ofInt 0) : Vector2f F := ⟨init_x, init_y⟩

/-- Constructor `Vector3f(float init_x = 0, float init_y = 0, float init_z = 0)`:
builds the `Vector2f` base, then `z`. -/
def Vector3f.new {F : Type} [FloatArith F] (init_x : F := FloatArith.ofInt 0)
    (init_y : F := FloatArith.ofInt 0) (init_z : F := FloatArith.ofInt 0) : Vector3f F :=
  ⟨Vector2f.new init_x init_y, init_z⟩

/-- Constructor
`Vector4f(float init_x = 0, float init_y = 0, float init_z = 0, float init_w = 0)`:
builds the `Vector3f` base, then `w`. -/
def Vector4f.new {F : Type} [FloatArith F] (init_x : F := FloatArith.ofInt 0)
    (init_y : F := FloatArith.ofInt 0) (init_z : F := FloatArith.ofInt 0)
    (init_w : F := FloatArith.ofInt 0) : Vector4f F :=
  ⟨Vector3f.new init_x init_y init_z, init_w⟩

/-! ## Boolean component vectors (`VA.h` 76-98) -/

/-- Class `Vector2b`: `bool x, y`. -/
structure Vector2b where
  x : Bool
  y : Bool
  deriving DecidableEq, Repr

/-- Class `Vector3b : public Vector2b`: adds `bool z`. -/
structure Vector3b extends Vector2b where
  z : Bool
  deriving DecidableEq, Repr

/-- Class `Vector4b : public Vector3b`: adds `bool w`. -/
structure Vector4b extends Vector3b where
  w : Bool
  deriving DecidableEq, Repr

/-- Constructor `Vector2b(bool init_x = false, bool init_y = false)`. -/
def Vector2b.new (init_x : Bool := false) (init_y : Bool := false) : Vector2b :=
  ⟨init_x, init_y⟩

/-- Constructor
`Vector3b(bool init_x = false, bool init_y = false, bool init_z = false)`:
builds the `Vector2b` base, then `z`. -/
def Vector3b.new (init_x : Bool := false) (init_y : Bool := false)
    (init_z : Bool := false) : Vector3b :=
  ⟨Vector2b.new init_x init_y, init_z⟩

/-- Constructor `Vector4b(bool init_x = false, bool init_y = false,
bool init_z = false, bool init_w = false)`: builds the `Vector3b` base, then
`w`. -/
def Vector4b.new (init_x : Bool := false) (init_y : Bool := false)
    (init_z : Bool := false) (init_w : Bool := false) : Vector4b :=
  ⟨Vector3b.new init_x init_y init_z, init_w⟩

/-! ## Conversion (`VA.h` 111-113) -/

section Float
variable {F : Type} [FloatArith F]
open FloatArith

/-- The `Vector2f vecitof(Vector2i vi)`. -/
def Vector2i.vecitof (vi : Vector2i) : Vector2f F :=
  Vector2f.new (ofInt vi.x) (ofInt vi.y)

/-- The `Vector3f vecitof(Vector3i vi)`. -/
def Vector3i.vecitof (vi : Vector3i) : Vector3f F :=
  Vector3f.new (ofInt vi.x) (ofInt vi.y) (ofInt vi.z)

/-- The `Vector4f vecitof(Vector4i vi)`. -/
def Vector4i.vecitof (vi : Vector4i) : Vector4f F :=
  Vector4f.new (ofInt vi.x) (ofInt vi.y) (ofInt vi.z) (ofInt vi.w)

/-! ## Float vector operations (`VA.h` 120-141) -/

/-- The `float operator&(Vector2f v1, Vector2f v2)`. -/
def Vector2f.opAnd (v1 v2 : Vector2f F) : F :=
  add (mul v1.x v2.x) (mul v1.y v2.y)

/-- The `float operator&(Vector3f v1, Vector3f v2)`. -/
def Vector3f.opAnd (v1 v2 : Vector3f F) : F :=
  add (add (mul v1.x v2.x) (mul v1.y v2.y)) (mul v1.z v2.z)

/-- The `float operator&(Vector4f v1, Vector4f v2)`. -/
def Vector4f.opAnd (v1 v2 : Vector4f F) : F :=
  add (add (add (mul v1.x v2.x) (mul v1.y v2.y)) (mul v1.z v2.z)) (mul v1.w v2.w)

/-- The `float dot(Vector2f v1, Vector2f v2)`: `v1 & v2`. -/
def Vector2f.dot (v1 v2 : Vector2f F) : F := v1.opAnd v2

/-- The `float dot(Vector3f v1, Vector3f v2)`: `v1 & v2`. -/
def Vector3f.dot (v1 v2 : Vector3f F) : F := v1.opAnd v2

/-- The `float dot(Vector4f v1, Vector4f v2)`: `v1 & v2`. -/
def Vector4f.dot (v1 v2 : Vector4f F) : F := v1.opAnd v2

/-- The `Vector2f operator+(Vector2f v1, Vector2f v2)`. -/
def Vector2f.opAdd (v1 v2 : Vector2f F) : Vector2f F :=
  Vector2f.new (add v1.x v2.x) (add v1.y v2.y)

/-- The `Vector3f operator+(Vector3f v1, Vector3f v2)`. -/
def Vector3f.opAdd (v1 v2 : Vector3f F) : Vector3f F :=
  Vector3f.new (add v1.x v2.x) (add v1.y v2.y) (add v1.z v2.z)

/-- The `Vector4f operator+(Vector4f v1, Vector4f v2)`. -/
def Vector4f.opAdd (v1 v2 : Vector4f F) : Vector4f F :=
  Vector4f.new (add v1.x v2.x) (add v1.y v2.y) (add v1.z v2.z) (add v1.w v2.w)

/-- The `Vector2f operator*(float scalar, Vector2f v1)`. -/
def Vector2f.opMul (scalar : F) (v1 : Vector2f F) : Vector2f F :=
  Vector2f.new (mul scalar v1.x) (mul scalar v1.y)

/-- The `Vector3f operator*(float scalar, Vector3f v1)`. -/
def Vector3f.opMul (scalar : F) (v1 : Vector3f F) : Vector3f F :=
  Vector3f.new (mul scalar v1.x) (mul scalar v1.y) (mul scalar v1.z)

/-- The `Vector4f operator*(float scalar, Vector4f v1)`. -/
def Vector4f.opMul (scalar : F) (v1 : Vector4f F) : Vector4f F :=
  Vector4f.new (mul scalar v1.x) (mul scalar v1.y) (mul scalar v1.z) (mul scalar v1.w)

/-- The `Vector2f operator*(Vector2f v1, float scalar)`: `scalar * v1`. -/
def Vector2f.opMulR (v1 : Vector2f F) (scalar : F) : Vector2f F := Vector2f.opMul scalar v1

/-- The `Vector3f operator*(Vector3f v1, float scalar)`: `scalar * v1`. -/
def Vector3f.opMulR (v1 : Vector3f F) (scalar : F) : Vector3f F := Vector3f.opMul scalar v1

/-- The `Vector4f operator*(Vector4f v1, float scalar)`: `scalar * v1`. -/
def Vector4f.opMulR (v1 : Vector4f F) (scalar : F) : Vector4f F := Vector4f.opMul scalar v1

/-- The `float magnitude_sqr(Vector2f v)`: `v & v`. -/
def Vector2f.magnitude_sqr (v : Vector2f F) : F := v.opAnd v

/-- The `float magnitude_sqr(Vector3f v)`: `v & v`. -/
def Vector3f.magnitude_sqr (v : Vector3f F) : F := v.opAnd v

/-- The `float magnitude_sqr(Vector4f v)`: `v & v`. -/
def Vector4f.magnitude_sqr (v : Vector4f F) : F := v.opAnd v

/-! ## Inter-type operations (`VA.h` 176-208)

In a C++ expression with one `int` and one `float` operand the `int` is
converted to `float` first; the conversion is the same `ofInt` as the explicit
cast `(float)`. -/

/-- The `float operator&(Vector2i v1, Vector2f v2)`. -/
def Vector2i.opAndF (v1 : Vector2i) (v2 : Vector2f F) : F :=
  add (mul (ofInt v1.x) v2.x) (mul (ofInt v1.y) v2.y)

/-- The `float operator&(Vector2f v1, Vector2i v2)`: `v2 & v1`. -/
def Vector2f.opAndI (v1 : Vector2f F) (v2 : Vector2i) : F := v2.opAndF v1

/-- The `float operator&(Vector3i v1, Vector3f v2)`. -/
def Vector3i.opAndF (v1 : Vector3i) (v2 : Vector3f F) : F :=
  add (add (mul (ofInt v1.x) v2.x) (mul (ofInt v1.y) v2.y)) (mul (ofInt v1.z) v2.z)

/-- The `float operator&(Vector3f v1, Vector3i v2)`: `v2 & v1`. -/
def Vector3f.opAndI (v1 : Vector3f F) (v2 : Vector3i) : F := v2.opAndF v1

/-- The `float operator&(Vector4i v1, Vector4f v2)`. -/
def Vector4i.opAndF (v1 : Vector4i) (v2 : Vector4f F) : F :=
  add (add (add (mul (ofInt v1.x) v2.x) (mul (ofInt v1.y) v2.y)) (mul (ofInt v1.z) v2.z))
    (mul (ofInt v1.w) v2.w)

/-- The `float operator&(Vector4f v1, Vector4i v2)`: `v2 & v1`. -/
def Vector4f.opAndI (v1 : Vector4f F) (v2 : Vector4i) : F := v2.opAndF v1

/-- The `float dot(Vector2i v1, Vector2f v2)`: `v1 & v2`. -/
def Vector2i.dotF (v1 : Vector2i) (v2 : Vector2f F) : F := v1.opAndF v2

/-- The `float dot(Vector2f v1, Vector2i v2)`: `v1 & v2`. -/
def Vector2f.dotI (v1 : Vector2f F) (v2 : Vector2i) : F := v1.opAndI v2

/-- The `float dot(Vector3i v1, Vector3f v2)`: `v1 & v2`. -/
def Vector3i.dotF (v1 : Vector3i) (v2 : Vector3f F) : F := v1.opAndF v2

/-- The `float dot(Vector3f v1, Vector3i v2)`: `v1 & v2`. -/
def Vector3f.dotI (v1 : Vector3f F) (v2 : Vector3i) : F := v1.opAndI v2

/-- The `float dot(Vector4i v1, Vector4f v2)`: `v1 & v2`. -/
def Vector4i.dotF (v1 : Vector4i) (v2 : Vector4f F) : F := v1.opAndF v2

/-- The `float dot(Vector4f v1, Vector4i v2)`: `v1 & v2`. -/
def Vector4f.dotI (v1 : Vector4f F) (v2 : Vector4i) : F := v1.opAndI v2

/-- The `Vector2f operator+(Vector2i v1, Vector2f v2)`. -/
def Vector2i.opAddF (v1 : Vector2i) (v2 : Vector2f F) : Vector2f F :=
  Vector2f.new (add (ofInt v1.x) v2.x) (add (ofInt v1.y) v2.y)

/-- The `Vector3f operator+(Vector3i v1, Vector3f v2)`. -/
def Vector3i.opAddF (v1 : Vector3i) (v2 : Vector3f F) : Vector3f F :=
  Vector3f.new (add (ofInt v1.x) v2.x) (add (ofInt v1.y) v2.y) (add (ofInt v1.z) v2.z)

/-- The `Vector4f operator+(Vector4i v1, Vector4f v2)`. -/
def Vector4i.opAddF (v1 : Vector4i) (v2 : Vector4f F) : Vector4f F :=
  Vector4f.new (add (ofInt v1.x) v2.x) (add (ofInt v1.y) v2.y) (add (ofInt v1.z) v2.z)
    (add (ofInt v1.w) v2.w)

/-- The `Vector2f operator+(Vector2f v1, Vector2i v2)`: `v2 + v1`. -/
def Vector2f.opAddI (v1 : Vector2f F) (v2 : Vector2i) : Vector2f F := v2.opAddF v1

/-- The `Vector3f operator+(Vector3f v1, Vector3i v2)`: `v2 + v1`. -/
def Vector3f.opAddI (v1 : Vector3f F) (v2 : Vector3i) : Vector3f F := v2.opAddF v1

/-- The `Vector4f operator+(Vector4f v1, Vector4i v2)`: `v2 + v1`. -/
def Vector4f.opAddI (v1 : Vector4f F) (v2 : Vector4i) : Vector4f F := v2.opAddF v1

/-- The `Vector2f operator*(int scalar, Vector2f v1)`:
`Vector2f(scalar * v1.x, scalar * v1.y * scalar)`. -/
def Vector2f.opMulI (scalar : Int) (v1 : Vector2f F) : Vector2f F :=
  Vector2f.new (mul (ofInt scalar) v1.x) (mul (mul (ofInt scalar) v1.y) (ofInt scalar))

/-- The `Vector2f operator*(float scalar, Vector2i v1)`:
`Vector2f(scalar * v1.x, scalar * v1.y * scalar)`. -/
def Vector2i.opMulF (scalar : F) (v1 : Vector2i) : Vector2f F :=
  Vector2f.new (mul scalar (ofInt v1.x)) (mul (mul scalar (ofInt v1.y)) scalar)

/-- The `Vector3f operator*(int scalar, Vector3f v1)`:
`Vector3f(scalar * v1.x, scalar * v1.y * scalar, scalar * v1.z)`. -/
def Vector3f.opMulI (scalar : Int) (v1 : Vector3f F) : Vector3f F :=
  Vector3f.new (mul (ofInt scalar) v1.x) (mul (mul (ofInt scalar) v1.y) (ofInt scalar))
    (mul (ofInt scalar) v1.z)

/-- The `Vector3f operator*(float scalar, Vector3i v1)`:
`Vector3f(scalar * v1.x, scalar * v1.y * scalar, scalar * v1.z)`. -/
def Vector3i.opMulF (scalar : F) (v1 : Vector3i) : Vector3f F :=
  Vector3f.new (mul scalar (ofInt v1.x)) (mul (mul scalar (ofInt v1.y)) scalar)
    (mul scalar (ofInt v1.z))

/-- The `Vector4f operator*(int scalar, Vector4f v1)`:
`Vector4f(scalar * v1.x, scalar * v1.y * scalar, scalar * v1.z, scalar * v1.w)`. -/
def Vector4f.opMulI (scalar : Int) (v1 : Vector4f F) : Vector4f F :=
  Vector4f.new (mul (ofInt scalar) v1.x) (mul (mul (ofInt scalar) v1.y) (ofInt scalar))
    (mul (ofInt scalar) v1.z) (mul (ofInt scalar) v1.w)

/-- The `Vector4f operator*(float scalar, Vector4i v1)`:
`Vector4f(scalar * v1.x, scalar * v1.y * scalar, scalar * v1.z, scalar * v1.w)`. -/
def Vector4i.opMulF (scalar : F) (v1 : Vector4i) : Vector4f F :=
  Vector4f.new (mul scalar (ofInt v1.x)) (mul (mul scalar (ofInt v1.y)) scalar)
    (mul scalar (ofInt v1.z)) (mul scalar (ofInt v1.w))

/-- The `Vector2f operator*(Vector2f v1, int scalar)`: `scalar * v1`. -/
def Vector2f.opMulIR (v1 : Vector2f F) (scalar : Int) : Vector2f F := Vector2f.opMulI scalar v1

/-- The `Vector2f operator*(Vector2i v1, float scalar)`: `scalar * v1`. -/
def Vector2i.opMulFR (v1 : Vector2i) (scalar : F) : Vector2f F := Vector2i.opMulF scalar v1

/-- The `Vector3f operator*(Vector3f v1, int scalar)`: `scalar * v1`. -/
def Vector3f.opMulIR (v1 : Vector3f F) (scalar : Int) : Vector3f F := Vector3f.opMulI scalar v1

/-- The `Vector3f operator*(Vector3i v1, float scalar)`: `scalar * v1`. -/
def Vector3i.opMulFR (v1 : Vector3i) (scalar : F) : Vector3f F := Vector3i.opMulF scalar v1

/-- The `Vector4f operator*(Vector4f v1, int scalar)`: `scalar * v1`. -/
def Vector4f.opMulIR (v1 : Vector4f F) (scalar : Int) : Vector4f F := Vector4f.opMulI scalar v1

/-- The `Vector4f operator*(Vector4i v1, float scalar)`: `scalar * v1`. -/
def Vector4i.opMulFR (v1 : Vector4i) (scalar : F) : Vector4f F := Vector4i.opMulF scalar v1

end Float

/-! ## Magnitude (`VA.h` 143-145, 171-173)

`sqrt` is the `<cmath>` function that the header calls.  It is a parameter of
the model: the function from the argument of the call (an `int` or a `float`,
which the call converts to `double`) to the `double` result, an element of
`D`. -/

/-- The `double magnitude(Vector2i v)`: `sqrt(v & v)`. -/
def Vector2i.magnitude {D : Type} (sqrt : Int → D) (v : Vector2i) : D := sqrt (v.opAnd v)

/-- The `double magnitude(Vector3i v)`: `sqrt(v & v)`. -/
def Vector3i.magnitude {D : Type} (sqrt : Int → D) (v : Vector3i) : D := sqrt (v.opAnd v)

/-- The `double magnitude(Vector4i v)`: `sqrt(v & v)`. -/
def Vector4i.magnitude {D : Type} (sqrt : Int → D) (v : Vector4i) : D := sqrt (v.opAnd v)

/-- The `double magnitude(Vector2f v)`: `sqrt(v & v)`. -/
def Vector2f.magnitude {F D : Type} [FloatArith F] (sqrt : F → D) (v : Vector2f F) : D :=
  sqrt (v.opAnd v)

/-- The `double magnitude(Vector3f v)`: `sqrt(v & v)`. -/
def Vector3f.magnitude {F D : Type} [FloatArith F] (sqrt : F → D) (v : Vector3f F) : D :=
  sqrt (v.opAnd v)

/-- The `double magnitude(Vector4f v)`: `sqrt(v & v)`. -/
def Vector4f.magnitude {F D : Type} [FloatArith F] (sqrt : F → D) (v : Vector4f F) : D :=
  sqrt (v.opAnd v)

/-- A reading `val` of the float values as real numbers under which a float
square is non-negative and a float sum of two non-negative values is
non-negative.  Exact arithmetic has it, and so has any arithmetic that rounds
monotonically and keeps `0`, as long as no result overflows. -/
def FloatArith.SignLaws {F : Type} [FloatArith F] (val : F → ℝ) : Prop :=
  (∀ a : F, 0 ≤ val (FloatArith.mul a a)) ∧
  (∀ a b : F, 0 ≤ val a → 0 ≤ val b → 0 ≤ val (FloatArith.add a b))

/-! ## Rounding conversion (`VA.h` 104-109, compiled under `ROUNDING_VECTORS`) -/

/-- The operations that `vecftoi` applies to a `float` component: `round` of
`<cmath>` and the conversion `(int)`. -/
class FloatRound (F : Type) where
  round : F → F
  toInt : F → Int

/-- The `Vector2i vecftoi(Vector2f vf)`:
`Vector2i((int)round(vf.x), (int)round(vf.y))`. -/
def Vector2f.vecftoi {F : Type} [FloatRound F] (vf : Vector2f F) : Vector2i :=
  Vector2i.new (FloatRound.toInt (FloatRound.round vf.x))
    (FloatRound.toInt (FloatRound.round vf.y))

/-- The `Vector3i vecftoi(Vector3f vf)`. -/
def Vector3f.vecftoi {F : Type} [FloatRound F] (vf : Vector3f F) : Vector3i :=
  Vector3i.new (FloatRound.toInt (FloatRound.round vf.x))
    (FloatRound.toInt (FloatRound.round vf.y)) (FloatRound.toInt (FloatRound.round vf.z))

/-- The `Vector4i vecftoi(Vector4f vf)`. -/
def Vector4f.vecftoi {F : Type} [FloatRound F] (vf : Vector4f F) : Vector4i :=
  Vector4i.new (FloatRound.toInt (FloatRound.round vf.x))
    (FloatRound.toInt (FloatRound.round vf.y)) (FloatRound.toInt (FloatRound.round vf.z))
    (FloatRound.toInt (FloatRound.round vf.w))

/-! ## A binary32 arithmetic

The finite values of IEEE 754 binary32 read as rationals.  Every operation
returns the exact result rounded to nearest, a halfway case to the even
significand, with a 24-bit significand and gradual underflow; results beyond
the largest finite value are not modelled (they are rounded like the others).
`round` and `(int)` follow the C standard: `round` goes to the nearest integer
with halfway cases away from zero, `(int)` drops the fraction; a value outside
the `int` range, for which C++ leaves the conversion undefined, is wrapped. -/

/-- The nearest integer, a halfway case going to the even neighbour. -/
def roundHalfEven (q : ℚ) : Int :=
  if q - ⌊q⌋ < 1 / 2 then ⌊q⌋
  else if 1 / 2 < q - ⌊q⌋ then ⌊q⌋ + 1
  else if ⌊q⌋ % 2 = 0 then ⌊q⌋ else ⌊q⌋ + 1

/-- The exponent `e` of the binary32 grid `2^e * ℤ` that contains the
neighbours of `q`: 23 below the exponent of `q`, and at least `-149`. -/
def ulpExponent (q : ℚ) : Int := max (Int.log 2 |q| - 23) (-149)

/-- The binary32 value nearest to `q`, a halfway case going to the even
significand. -/
def roundBinary32 (q : ℚ) : ℚ :=
  (roundHalfEven (q / 2 ^ ulpExponent q) : ℚ) * 2 ^ ulpExponent q

/-- The `round` of the C library: the nearest integer, a halfway case going
away from zero. -/
def cround (q : ℚ) : ℚ := if 0 ≤ q then ((⌊q + 1 / 2⌋ : Int) : ℚ) else ((⌈q - 1 / 2⌉ : Int) : ℚ)

/-- The conversion `(int)` of a floating value: the fraction is dropped. -/
def truncToInt (q : ℚ) : Int := wrapInt (if 0 ≤ q then ⌊q⌋ else ⌈q⌉)

/-- A binary32 value, read as a rational. -/
structure Binary32 where
  val : ℚ
  deriving DecidableEq

/-- The binary32 arithmetic: every result is rounded by `roundBinary32`. -/
instance binary32Arith : FloatArith Binary32 where
  ofInt := fun i => ⟨roundBinary32 (i : ℚ)⟩
  add := fun a b => ⟨roundBinary32 (a.val + b.val)⟩
  mul := fun a b => ⟨roundBinary32 (a.val * b.val)⟩

/-- The `round` and `(int)` of binary32 values. -/
instance binary32Round : FloatRound Binary32 where
  round := fun a => ⟨cround a.val⟩
  toInt := fun a => truncToInt a.val

/-- The value of `a` is a binary32 value: rounding leaves it unchanged. -/
def Binary32.representable (a : Binary32) : Prop := roundBinary32 a.val = a.val

/-- The value `q` lies within the range of `int`. -/
def inIntRange (q : ℚ) : Prop := -2147483648 ≤ q ∧ q ≤ 2147483647

/-- The int `i` is at most `2^24 = 16777216` in absolute value. -/
def fitsFloat (i : Int) : Prop := -16777216 ≤ i ∧ i ≤ 16777216

instance (q : ℚ) : Decidable (inIntRange q) := by
  unfold inIntRange; infer_instance

instance (i : Int) : Decidable (fitsFloat i) := by
  unfold fitsFloat; infer_instance

/-! ## Lemmas on machine integers -/

theorem wrapInt_of_isInt32 {z : Int} (h : isInt32 z) : wrapInt z = z := by
  unfold isInt32 at h
  unfold wrapInt
  omega

theorem isInt32_wrapInt (z : Int) : isInt32 (wrapInt z) := by
  unfold isInt32 wrapInt
  omega

theorem imul_comm (a b : Int) : imul a b = imul b a := by
  unfold imul
  rw [Int.mul_comm]

theorem opAnd2i_of_fits (a b : Vector2i) (h : a.dotFits b) :
    a.opAnd b = a.x * b.x + a.y * b.y := by
  obtain ⟨hx, hy, hxy⟩ := h
  simp only [Vector2i.opAnd, iadd, imul, wrapInt_of_isInt32 hx, wrapInt_of_isInt32 hy,
    wrapInt_of_isInt32 hxy]

theorem opAnd3i_of_fits (a b : Vector3i) (h : a.dotFits b) :
    a.opAnd b = a.x * b.x + a.y * b.y + a.z * b.z := by
  obtain ⟨hx, hy, hz, hxy, hxyz⟩ := h
  simp only [Vector3i.opAnd, iadd, imul, wrapInt_of_isInt32 hx, wrapInt_of_isInt32 hy,
    wrapInt_of_isInt32 hz, wrapInt_of_isInt32 hxy, wrapInt_of_isInt32 hxyz]

theorem opAnd4i_of_fits (a b : Vector4i) (h : a.dotFits b) :
    a.opAnd b = a.x * b.x + a.y * b.y + a.z * b.z + a.w * b.w := by
  obtain ⟨hx, hy, hz, hw, hxy, hxyz, hxyzw⟩ := h
  simp only [Vector4i.opAnd, iadd, imul, wrapInt_of_isInt32 hx, wrapInt_of_isInt32 hy,
    wrapInt_of_isInt32 hz, wrapInt_of_isInt32 hw, wrapInt_of_isInt32 hxy,
    wrapInt_of_isInt32 hxyz, wrapInt_of_isInt32 hxyzw]

/-! ## Dot product -/

/-- C1: when the component products and the partial sums of the dot product
fit in a 32-bit signed `int`, `dot(a, b)` and `a & b` both return the exact
integer sum of the products of matched components, in dimension 2, 3 and 4. -/
theorem dot_eq_exact_sum_of_fits :
    (∀ a b : Vector2i, a.dotFits b →
      a.dot b = a.x * b.x + a.y * b.y ∧ a.opAnd b = a.x * b.x + a.y * b.y) ∧
    (∀ a b : Vector3i, a.dotFits b →
      a.dot b = a.x * b.x + a.y * b.y + a.z * b.z ∧
      a.opAnd b = a.x * b.x + a.y * b.y + a.z * b.z) ∧
    (∀ a b : Vector4i, a.dotFits b →
      a.dot b = a.x * b.x + a.y * b.y + a.z * b.z + a.w * b.w ∧
      a.opAnd b = a.x * b.x + a.y * b.y + a.z * b.z + a.w * b.w) :=
  ⟨fun a b h => ⟨opAnd2i_of_fits a b h, opAnd2i_of_fits a b h⟩,
   fun a b h => ⟨opAnd3i_of_fits a b h, opAnd3i_of_fits a b h⟩,
   fun a b h => ⟨opAnd4i_of_fits a b h, opAnd4i_of_fits a b h⟩⟩

/-- C1 at `(1,2)·(3,4)`, `(1,2,3)·(4,5,6)` and
`(40000,-3,7,1)·(50000,2,-9,1)`: the hypotheses hold and the dot products are
`11`, `32` and `1999999932`. -/
theorem dot_eq_exact_sum_of_fits_witness :
    ((Vector2i.new 1 2).dotFits (Vector2i.new 3 4) ∧
      (Vector2i.new 1 2).dot (Vector2i.new 3 4) = 11) ∧
    ((Vector3i.new 1 2 3).dotFits (Vector3i.new 4 5 6) ∧
      (Vector3i.new 1 2 3).opAnd (Vector3i.new 4 5 6) = 32) ∧
    ((Vector4i.new 40000 (-3) 7 1).dotFits (Vector4i.new 50000 2 (-9) 1) ∧
      (Vector4i.new 40000 (-3) 7 1).dot (Vector4i.new 50000 2 (-9) 1) = 1999999932) :=
  ⟨⟨by decide, (dot_eq_exact_sum_of_fits.1 _ _ (by decide)).1⟩,
   ⟨by decide, (dot_eq_exact_sum_of_fits.2.1 _ _ (by decide)).2⟩,
   ⟨by decide, (dot_eq_exact_sum_of_fits.2.2 _ _ (by decide)).1⟩⟩

/-- C2: the int dot product is commutative under 32-bit wraparound in
dimension 2, 3 and 4, and for an int vector `vi` and a float vector `vf` the
float-first overloads `dot(vf, vi)` and `vf & vi` return what the int-first
ones return, for every float arithmetic. -/
theorem dot_comm :
    (∀ a b : Vector2i, a.dot b = b.dot a) ∧
    (∀ a b : Vector3i, a.dot b = b.dot a) ∧
    (∀ a b : Vector4i, a.dot b = b.dot a) ∧
    (∀ (F : Type) [FloatArith F] (vi : Vector2i) (vf : Vector2f F),
      vf.dotI vi = vi.dotF vf ∧ vf.opAndI vi = vi.opAndF vf) ∧
    (∀ (F : Type) [FloatArith F] (vi : Vector3i) (vf : Vector3f F),
      vf.dotI vi = vi.dotF vf ∧ vf.opAndI vi = vi.opAndF vf) ∧
    (∀ (F : Type) [FloatArith F] (vi : Vector4i) (vf : Vector4f F),
      vf.dotI vi = vi.dotF vf ∧ vf.opAndI vi = vi.opAndF vf) := by
  refine ⟨?_, ?_, ?_, ?_, ?_, ?_⟩
  · intro a b
    simp only [Vector2i.dot, Vector2i.opAnd, imul_comm a.x, imul_comm a.y]
  · intro a b
    simp only [Vector3i.dot, Vector3i.opAnd, imul_comm a.x, imul_comm a.y, imul_comm a.z]
  · intro a b
    simp only [Vector4i.dot, Vector4i.opAnd, imul_comm a.x, imul_comm a.y, imul_comm a.z,
      imul_comm a.w]
  · intro F _ vi vf
    exact ⟨rfl, rfl⟩
  · intro F _ vi vf
    exact ⟨rfl, rfl⟩
  · intro F _ vi vf
    exact ⟨rfl, rfl⟩

/-! ## Addition -/

/-- C3: every component `c` of the int sum `a + b` is the `int` sum
`a.c + b.c` (dimension 2, 3 and 4), which is the exact sum whenever that fits
in a 32-bit signed `int`; `Vector3i(1,2,3) + Vector3i(4,5,6)` is
`Vector3i(5,7,9)`; and the mixed sum `vi + vf` is the float sum
`vecitof(vi) + vf`, for every float arithmetic. -/
theorem opAdd_componentwise :
    (∀ a b : Vector2i, (a.opAdd b).x = iadd a.x b.x ∧ (a.opAdd b).y = iadd a.y b.y) ∧
    (∀ a b : Vector3i, (a.opAdd b).x = iadd a.x b.x ∧ (a.opAdd b).y = iadd a.y b.y ∧
      (a.opAdd b).z = iadd a.z b.z) ∧
    (∀ a b : Vector4i, (a.opAdd b).x = iadd a.x b.x ∧ (a.opAdd b).y = iadd a.y b.y ∧
      (a.opAdd b).z = iadd a.z b.z ∧ (a.opAdd b).w = iadd a.w b.w) ∧
    (∀ m n : Int, isInt32 (m + n) → iadd m n = m + n) ∧
    (Vector3i.new 1 2 3).opAdd (Vector3i.new 4 5 6) = Vector3i.new 5 7 9 ∧
    (∀ (F : Type) [FloatArith F] (vi : Vector2i) (vf : Vector2f F),
      vi.opAddF vf = (vi.vecitof).opAdd vf) ∧
    (∀ (F : Type) [FloatArith F] (vi : Vector3i) (vf : Vector3f F),
      vi.opAddF vf = (vi.vecitof).opAdd vf) ∧
    (∀ (F : Type) [FloatArith F] (vi : Vector4i) (vf : Vector4f F),
      vi.opAddF vf = (vi.vecitof).opAdd vf) :=
  ⟨fun _ _ => ⟨rfl, rfl⟩, fun _ _ => ⟨rfl, rfl, rfl⟩, fun _ _ => ⟨rfl, rfl, rfl, rfl⟩,
   fun _ _ h => wrapInt_of_isInt32 h, by decide,
   fun _ _ _ _ => rfl, fun _ _ _ _ => rfl, fun _ _ _ _ => rfl⟩

/-- C3 at `2147483000 + 647`: the exact sum `2147483647` fits, and the first
component of `Vector2i(2147483000, 1) + Vector2i(647, 1)` is that sum. -/
theorem opAdd_componentwise_witness :
    isInt32 (2147483000 + 647) ∧
    ((Vector2i.new 2147483000 1).opAdd (Vector2i.new 647 1)).x = 2147483000 + 647 :=
  ⟨by decide,
   (opAdd_componentwise.1 (Vector2i.new 2147483000 1) (Vector2i.new 647 1)).1.trans
     (opAdd_componentwise.2.2.2.1 2147483000 647 (by decide))⟩

/-! ## Scalar multiplication -/

/-- C4: every component `c` of the int product `s * v` is the `int` product
`s * v.c` (dimension 2, 3 and 4), and `3 * Vector2i(2,5)` is
`Vector2i(6,15)`. -/
theorem opMul_componentwise :
    (∀ (s : Int) (v : Vector2i),
      (Vector2i.opMul s v).x = imul s v.x ∧ (Vector2i.opMul s v).y = imul s v.y) ∧
    (∀ (s : Int) (v : Vector3i),
      (Vector3i.opMul s v).x = imul s v.x ∧ (Vector3i.opMul s v).y = imul s v.y ∧
      (Vector3i.opMul s v).z = imul s v.z) ∧
    (∀ (s : Int) (v : Vector4i),
      (Vector4i.opMul s v).x = imul s v.x ∧ (Vector4i.opMul s v).y = imul s v.y ∧
      (Vector4i.opMul s v).z = imul s v.z ∧ (Vector4i.opMul s v).w = imul s v.w) ∧
    Vector2i.opMul 3 (Vector2i.new 2 5) = Vector2i.new 6 15 :=
  ⟨fun _ _ => ⟨rfl, rfl⟩, fun _ _ => ⟨rfl, rfl, rfl⟩, fun _ _ => ⟨rfl, rfl, rfl, rfl⟩,
   by decide⟩

/-- C5: `v * s` and `s * v` are the same vector for an int scalar with an int
vector, a float scalar with a float vector, an int scalar with a float vector
and a float scalar with an int vector, in dimension 2, 3 and 4 and for every
float arithmetic. -/
theorem opMul_both_orders :
    (∀ (s : Int) (v : Vector2i), v.opMulR s = Vector2i.opMul s v) ∧
    (∀ (s : Int) (v : Vector3i), v.opMulR s = Vector3i.opMul s v) ∧
    (∀ (s : Int) (v : Vector4i), v.opMulR s = Vector4i.opMul s v) ∧
    (∀ (F : Type) [FloatArith F] (s : F) (v : Vector2f F), v.opMulR s = Vector2f.opMul s v) ∧
    (∀ (F : Type) [FloatArith F] (s : F) (v : Vector3f F), v.opMulR s = Vector3f.opMul s v) ∧
    (∀ (F : Type) [FloatArith F] (s : F) (v : Vector4f F), v.opMulR s = Vector4f.opMul s v) ∧
    (∀ (F : Type) [FloatArith F] (s : Int) (v : Vector2f F),
      v.opMulIR s = Vector2f.opMulI s v) ∧
    (∀ (F : Type) [FloatArith F] (s : Int) (v : Vector3f F),
      v.opMulIR s = Vector3f.opMulI s v) ∧
    (∀ (F : Type) [FloatArith F] (s : Int) (v : Vector4f F),
      v.opMulIR s = Vector4f.opMulI s v) ∧
    (∀ (F : Type) [FloatArith F] (s : F) (v : Vector2i), v.opMulFR s = Vector2i.opMulF s v) ∧
    (∀ (F : Type) [FloatArith F] (s : F) (v : Vector3i), v.opMulFR s = Vector3i.opMulF s v) ∧
    (∀ (F : Type) [FloatArith F] (s : F) (v : Vector4i), v.opMulFR s = Vector4i.opMulF s v) :=
  ⟨fun _ _ => rfl, fun _ _ => rfl, fun _ _ => rfl,
   fun _ _ _ _ => rfl, fun _ _ _ _ => rfl, fun _ _ _ _ => rfl,
   fun _ _ _ _ => rfl, fun _ _ _ _ => rfl, fun _ _ _ _ => rfl,
   fun _ _ _ _ => rfl, fun _ _ _ _ => rfl, fun _ _ _ _ => rfl⟩

/-- C6: with float scalar `2` and `Vector2i(1,1)` the mixed product is
`(2, 4)` while the float product `2 * vecitof(Vector2i(1,1))` is `(2, 2)`, and
with int scalar `2` and `Vector2f(1,1)` the mixed product is `(2, 4)` while
`(float)2 * Vector2f(1,1)` is `(2, 2)` (exact arithmetic); the `x`, `z` and
`w` components of the mixed products do agree with the float products, for
every float arithmetic. -/
theorem mixed_opMul_y_differs_from_promoted :
    Vector2i.opMulF (2 : ℚ) (Vector2i.new 1 1) = Vector2f.new 2 4 ∧
    Vector2f.opMul (2 : ℚ) (Vector2i.new 1 1).vecitof = Vector2f.new 2 2 ∧
    Vector2f.opMulI 2 (Vector2f.new (1 : ℚ) 1) = Vector2f.new 2 4 ∧
    Vector2f.opMul (FloatArith.ofInt 2) (Vector2f.new (1 : ℚ) 1) = Vector2f.new 2 2 ∧
    (∀ (F : Type) [FloatArith F] (s : F) (v : Vector2i),
      (Vector2i.opMulF s v).x = (Vector2f.opMul s v.vecitof).x) ∧
    (∀ (F : Type) [FloatArith F] (s : F) (v : Vector3i),
      (Vector3i.opMulF s v).x = (Vector3f.opMul s v.vecitof).x ∧
      (Vector3i.opMulF s v).z = (Vector3f.opMul s v.vecitof).z) ∧
    (∀ (F : Type) [FloatArith F] (s : F) (v : Vector4i),
      (Vector4i.opMulF s v).x = (Vector4f.opMul s v.vecitof).x ∧
      (Vector4i.opMulF s v).z = (Vector4f.opMul s v.vecitof).z ∧
      (Vector4i.opMulF s v).w = (Vector4f.opMul s v.vecitof).w) ∧
    (∀ (F : Type) [FloatArith F] (s : Int) (v : Vector2f F),
      (Vector2f.opMulI s v).x = (Vector2f.opMul (FloatArith.ofInt s) v).x) ∧
    (∀ (F : Type) [FloatArith F] (s : Int) (v : Vector3f F),
      (Vector3f.opMulI s v).x = (Vector3f.opMul (FloatArith.ofInt s) v).x ∧
      (Vector3f.opMulI s v).z = (Vector3f.opMul (FloatArith.ofInt s) v).z) ∧
    (∀ (F : Type) [FloatArith F] (s : Int) (v : Vector4f F),
      (Vector4f.opMulI s v).x = (Vector4f.opMul (FloatArith.ofInt s) v).x ∧
      (Vector4f.opMulI s v).z = (Vector4f.opMul (FloatArith.ofInt s) v).z ∧
      (Vector4f.opMulI s v).w = (Vector4f.opMul (FloatArith.ofInt s) v).w) := by
  refine ⟨?_, ?_, ?_, ?_, fun _ _ _ _ => rfl, fun _ _ _ _ => ⟨rfl, rfl⟩,
    fun _ _ _ _ => ⟨rfl, rfl, rfl⟩, fun _ _ _ _ => rfl, fun _ _ _ _ => ⟨rfl, rfl⟩,
    fun _ _ _ _ => ⟨rfl, rfl, rfl⟩⟩
  · simp only [Vector2i.opMulF, Vector2i.new, FloatArith.mul, FloatArith.ofInt]
    norm_num
  · simp only [Vector2f.opMul, Vector2i.vecitof, Vector2i.new, Vector2f.new, FloatArith.mul,
      FloatArith.ofInt]
    norm_num
  · simp only [Vector2f.opMulI, Vector2f.new, FloatArith.mul, FloatArith.ofInt]
    norm_num
  · simp only [Vector2f.opMul, Vector2f.new, FloatArith.mul, FloatArith.ofInt]
    norm_num

/-- C7: in the mixed products (int scalar `s` with a float vector `v`, float
scalar `s` with an int vector `v`) the result has `x = s*v.x`,
`y = (s*v.y)*s`, `z = s*v.z` and `w = s*v.w`, the int operand converted to
float, for every float arithmetic; with exact arithmetic int `2` times
`Vector2f(1,1)` is `(2, 4)` and not `(2, 2)`. -/
theorem mixed_opMul_components :
    (∀ (F : Type) [FloatArith F] (s : Int) (v : Vector2f F),
      (Vector2f.opMulI s v).x = FloatArith.mul (FloatArith.ofInt s) v.x ∧
      (Vector2f.opMulI s v).y =
        FloatArith.mul (FloatArith.mul (FloatArith.ofInt s) v.y) (FloatArith.ofInt s)) ∧
    (∀ (F : Type) [FloatArith F] (s : Int) (v : Vector3f F),
      (Vector3f.opMulI s v).x = FloatArith.mul (FloatArith.ofInt s) v.x ∧
      (Vector3f.opMulI s v).y =
        FloatArith.mul (FloatArith.mul (FloatArith.ofInt s) v.y) (FloatArith.ofInt s) ∧
      (Vector3f.opMulI s v).z = FloatArith.mul (FloatArith.ofInt s) v.z) ∧
    (∀ (F : Type) [FloatArith F] (s : Int) (v : Vector4f F),
      (Vector4f.opMulI s v).x = FloatArith.mul (FloatArith.ofInt s) v.x ∧
      (Vector4f.opMulI s v).y =
        FloatArith.mul (FloatArith.mul (FloatArith.ofInt s) v.y) (FloatArith.ofInt s) ∧
      (Vector4f.opMulI s v).z = FloatArith.mul (FloatArith.ofInt s) v.z ∧
      (Vector4f.opMulI s v).w = FloatArith.mul (FloatArith.ofInt s) v.w) ∧
    (∀ (F : Type) [FloatArith F] (s : F) (v : Vector2i),
      (Vector2i.opMulF s v).x = FloatArith.mul s (FloatArith.ofInt v.x) ∧
      (Vector2i.opMulF s v).y = FloatArith.mul (FloatArith.mul s (FloatArith.ofInt v.y)) s) ∧
    (∀ (F : Type) [FloatArith F] (s : F) (v : Vector3i),
      (Vector3i.opMulF s v).x = FloatArith.mul s (FloatArith.ofInt v.x) ∧
      (Vector3i.opMulF s v).y = FloatArith.mul (FloatArith.mul s (FloatArith.ofInt v.y)) s ∧
      (Vector3i.opMulF s v).z = FloatArith.mul s (FloatArith.ofInt v.z)) ∧
    (∀ (F : Type) [FloatArith F] (s : F) (v : Vector4i),
      (Vector4i.opMulF s v).x = FloatArith.mul s (FloatArith.ofInt v.x) ∧
      (Vector4i.opMulF s v).y = FloatArith.mul (FloatArith.mul s (FloatArith.ofInt v.y)) s ∧
      (Vector4i.opMulF s v).z = FloatArith.mul s (FloatArith.ofInt v.z) ∧
      (Vector4i.opMulF s v).w = FloatArith.mul s (FloatArith.ofInt v.w)) ∧
    (Vector2f.opMulI 2 (Vector2f.new (1 : ℚ) 1)).x = 2 ∧
    (Vector2f.opMulI 2 (Vector2f.new (1 : ℚ) 1)).y = 4 ∧
    Vector2f.opMulI 2 (Vector2f.new (1 : ℚ) 1) ≠ Vector2f.new 2 2 := by
  refine ⟨fun _ _ _ _ => ⟨rfl, rfl⟩, fun _ _ _ _ => ⟨rfl, rfl, rfl⟩,
    fun _ _ _ _ => ⟨rfl, rfl, rfl, rfl⟩, fun _ _ _ _ => ⟨rfl, rfl⟩,
    fun _ _ _ _ => ⟨rfl, rfl, rfl⟩, fun _ _ _ _ => ⟨rfl, rfl, rfl, rfl⟩, ?_, ?_, ?_⟩
  · simp only [Vector2f.opMulI, Vector2f.new, FloatArith.mul, FloatArith.ofInt]
    norm_num
  · simp only [Vector2f.opMulI, Vector2f.new, FloatArith.mul, FloatArith.ofInt]
    norm_num
  · simp only [Vector2f.opMulI, Vector2f.new, FloatArith.mul, FloatArith.ofInt]
    norm_num

/-! ## Mixed dot product -/

/-- C8: for an int vector `a` and a float vector `b` of the same dimension,
`dot(a, b)` and `a & b` are the float dot product of `vecitof(a)` and `b`, for
every float arithmetic; with exact arithmetic
`dot(Vector2i(1,0), Vector2f(0,1))` is `0`. -/
theorem mixed_dot_promotes :
    (∀ (F : Type) [FloatArith F] (a : Vector2i) (b : Vector2f F),
      a.dotF b = a.vecitof.dot b ∧ a.opAndF b = a.vecitof.opAnd b) ∧
    (∀ (F : Type) [FloatArith F] (a : Vector3i) (b : Vector3f F),
      a.dotF b = a.vecitof.dot b ∧ a.opAndF b = a.vecitof.opAnd b) ∧
    (∀ (F : Type) [FloatArith F] (a : Vector4i) (b : Vector4f F),
      a.dotF b = a.vecitof.dot b ∧ a.opAndF b = a.vecitof.opAnd b) ∧
    (Vector2i.new 1 0).dotF (Vector2f.new (0 : ℚ) 1) = 0 := by
  refine ⟨fun _ _ _ _ => ⟨rfl, rfl⟩, fun _ _ _ _ => ⟨rfl, rfl⟩,
    fun _ _ _ _ => ⟨rfl, rfl⟩, ?_⟩
  simp only [Vector2i.dotF, Vector2i.opAndF, Vector2i.new, Vector2f.new, FloatArith.add,
    FloatArith.mul, FloatArith.ofInt]
  norm_num

/-! ## Squared magnitude -/

/-- C9, as stated, fails: `Vector2i(46341, 0)` has both components in the
`int` range, and under 32-bit wraparound its `magnitude_sqr` is
`-2147479015`, a negative operand for the square root of `magnitude`. -/
theorem magnitude_sqr_negative_at_46341 :
    (Vector2i.new 46341 0).valid ∧
    (Vector2i.new 46341 0).magnitude_sqr = -2147479015 ∧
    ¬ (0 ≤ (Vector2i.new 46341 0).magnitude_sqr) := by
  decide

/-- C9, amended: for an int vector of dimension 2, 3 or 4 whose exact sum of
squared components is at most `2147483647`, `magnitude_sqr` is that sum and
is non-negative. -/
theorem magnitude_sqr_nonneg_of_fits :
    (∀ v : Vector2i, v.x * v.x + v.y * v.y ≤ 2147483647 →
      v.magnitude_sqr = v.x * v.x + v.y * v.y ∧ 0 ≤ v.magnitude_sqr) ∧
    (∀ v : Vector3i, v.x * v.x + v.y * v.y + v.z * v.z ≤ 2147483647 →
      v.magnitude_sqr = v.x * v.x + v.y * v.y + v.z * v.z ∧ 0 ≤ v.magnitude_sqr) ∧
    (∀ v : Vector4i, v.x * v.x + v.y * v.y + v.z * v.z + v.w * v.w ≤ 2147483647 →
      v.magnitude_sqr = v.x * v.x + v.y * v.y + v.z * v.z + v.w * v.w ∧
      0 ≤ v.magnitude_sqr) := by
  refine ⟨?_, ?_, ?_⟩
  · intro v h
    have hx := mul_self_nonneg v.x
    have hy := mul_self_nonneg v.y
    have hfit : v.dotFits v := by
      simp only [Vector2i.dotFits, isInt32]
      omega
    have heq : v.magnitude_sqr = v.x * v.x + v.y * v.y := opAnd2i_of_fits v v hfit
    exact ⟨heq, by rw [heq]; omega⟩
  · intro v h
    have hx := mul_self_nonneg v.x
    have hy := mul_self_nonneg v.y
    have hz := mul_self_nonneg v.z
    have hfit : v.dotFits v := by
      simp only [Vector3i.dotFits, isInt32]
      omega
    have heq : v.magnitude_sqr = v.x * v.x + v.y * v.y + v.z * v.z :=
      opAnd3i_of_fits v v hfit
    exact ⟨heq, by rw [heq]; omega⟩
  · intro v h
    have hx := mul_self_nonneg v.x
    have hy := mul_self_nonneg v.y
    have hz := mul_self_nonneg v.z
    have hw := mul_self_nonneg v.w
    have hfit : v.dotFits v := by
      simp only [Vector4i.dotFits, isInt32]
      omega
    have heq : v.magnitude_sqr = v.x * v.x + v.y * v.y + v.z * v.z + v.w * v.w :=
      opAnd4i_of_fits v v hfit
    exact ⟨heq, by rw [heq]; omega⟩

/-- C9, amended, at `Vector2i(46340, 0)`, `Vector3i(3, -4, 12)` and
`Vector4i(-1, 2, -3, 4)`: the sums of squares `2147395600`, `169` and `30`
fit, and `magnitude_sqr` is non-negative. -/
theorem magnitude_sqr_nonneg_of_fits_witness :
    ((46340 : Int) * 46340 + 0 * 0 ≤ 2147483647 ∧
      (Vector2i.new 46340 0).magnitude_sqr = 2147395600 ∧
      0 ≤ (Vector2i.new 46340 0).magnitude_sqr) ∧
    0 ≤ (Vector3i.new 3 (-4) 12).magnitude_sqr ∧
    0 ≤ (Vector4i.new (-1) 2 (-3) 4).magnitude_sqr :=
  ⟨⟨by decide,
    (magnitude_sqr_nonneg_of_fits.1 (Vector2i.new 46340 0) (by decide)).1,
    (magnitude_sqr_nonneg_of_fits.1 (Vector2i.new 46340 0) (by decide)).2⟩,
   (magnitude_sqr_nonneg_of_fits.2.1 (Vector3i.new 3 (-4) 12) (by decide)).2,
   (magnitude_sqr_nonneg_of_fits.2.2 (Vector4i.new (-1) 2 (-3) 4) (by decide)).2⟩

/-- C10: `magnitude_sqr(v)` is `dot(v, v)` for every int vector of dimension
2, 3 and 4, which is the `int` sum of the `int` squares of its components, and
`magnitude_sqr(v)` is `dot(v, v)` for every float vector and every float
arithmetic. -/
theorem magnitude_sqr_eq_dot_self :
    (∀ v : Vector2i, v.magnitude_sqr = v.dot v ∧
      v.magnitude_sqr = iadd (imul v.x v.x) (imul v.y v.y)) ∧
    (∀ v : Vector3i, v.magnitude_sqr = v.dot v ∧
      v.magnitude_sqr = iadd (iadd (imul v.x v.x) (imul v.y v.y)) (imul v.z v.z)) ∧
    (∀ v : Vector4i, v.magnitude_sqr = v.dot v ∧
      v.magnitude_sqr =
        iadd (iadd (iadd (imul v.x v.x) (imul v.y v.y)) (imul v.z v.z)) (imul v.w v.w)) ∧
    (∀ (F : Type) [FloatArith F] (v : Vector2f F), v.magnitude_sqr = v.dot v) ∧
    (∀ (F : Type) [FloatArith F] (v : Vector3f F), v.magnitude_sqr = v.dot v) ∧
    (∀ (F : Type) [FloatArith F] (v : Vector4f F), v.magnitude_sqr = v.dot v) :=
  ⟨fun _ => ⟨rfl, rfl⟩, fun _ => ⟨rfl, rfl⟩, fun _ => ⟨rfl, rfl⟩,
   fun _ _ _ => rfl, fun _ _ _ => rfl, fun _ _ _ => rfl⟩

/-! ## Further lemmas on machine integers -/

theorem iadd_comm (a b : Int) : iadd a b = iadd b a := by
  unfold iadd
  rw [Int.add_comm]

theorem iadd_zero_of_isInt32 {a : Int} (h : isInt32 a) : iadd a 0 = a := by
  unfold iadd
  rw [Int.add_zero]
  exact wrapInt_of_isInt32 h

theorem zero_iadd_of_isInt32 {a : Int} (h : isInt32 a) : iadd 0 a = a := by
  rw [iadd_comm]
  exact iadd_zero_of_isInt32 h

theorem iadd_iadd_zero (a b : Int) : iadd (iadd a b) (imul 0 0) = iadd a b := by
  unfold iadd imul wrapInt
  omega

/-! ## Addition: commutativity -/

/-- C13: int vector addition is commutative under 32-bit wraparound in
dimension 2, 3 and 4, and for an int vector `vi` and a float vector `vf` the
float-first `vf + vi` is the int-first `vi + vf`, for every float
arithmetic. -/
theorem opAdd_comm :
    (∀ a b : Vector2i, a.opAdd b = b.opAdd a) ∧
    (∀ a b : Vector3i, a.opAdd b = b.opAdd a) ∧
    (∀ a b : Vector4i, a.opAdd b = b.opAdd a) ∧
    (∀ (F : Type) [FloatArith F] (vi : Vector2i) (vf : Vector2f F),
      vf.opAddI vi = vi.opAddF vf) ∧
    (∀ (F : Type) [FloatArith F] (vi : Vector3i) (vf : Vector3f F),
      vf.opAddI vi = vi.opAddF vf) ∧
    (∀ (F : Type) [FloatArith F] (vi : Vector4i) (vf : Vector4f F),
      vf.opAddI vi = vi.opAddF vf) := by
  refine ⟨?_, ?_, ?_, fun _ _ _ _ => rfl, fun _ _ _ _ => rfl, fun _ _ _ _ => rfl⟩
  · intro a b
    simp only [Vector2i.opAdd, iadd_comm a.x, iadd_comm a.y]
  · intro a b
    simp only [Vector3i.opAdd, iadd_comm a.x, iadd_comm a.y, iadd_comm a.z]
  · intro a b
    simp only [Vector4i.opAdd, iadd_comm a.x, iadd_comm a.y, iadd_comm a.z, iadd_comm a.w]

/-! ## Constructors -/

/-- C16: for the int, float and bool classes of dimension 2, 3 and 4, the
constructor called with `k` leading arguments (`0 ≤ k ≤ N`) gives the vector
whose first `k` components are those arguments, in the order `x, y, z, w`, and
whose remaining components are `0` (the converted `int` literal for float,
`false` for bool). -/
theorem constructor_defaults :
    ((Vector2i.new = { x := 0, y := 0 }) ∧
      (∀ a : Int, Vector2i.new a = { x := a, y := 0 }) ∧
      (∀ a b : Int, Vector2i.new a b = { x := a, y := b })) ∧
    ((Vector3i.new = { x := 0, y := 0, z := 0 }) ∧
      (∀ a : Int, Vector3i.new a = { x := a, y := 0, z := 0 }) ∧
      (∀ a b : Int, Vector3i.new a b = { x := a, y := b, z := 0 }) ∧
      (∀ a b c : Int, Vector3i.new a b c = { x := a, y := b, z := c })) ∧
    ((Vector4i.new = { x := 0, y := 0, z := 0, w := 0 }) ∧
      (∀ a : Int, Vector4i.new a = { x := a, y := 0, z := 0, w := 0 }) ∧
      (∀ a b : Int, Vector4i.new a b = { x := a, y := b, z := 0, w := 0 }) ∧
      (∀ a b c : Int, Vector4i.new a b c = { x := a, y := b, z := c, w := 0 }) ∧
      (∀ a b c d : Int, Vector4i.new a b c d = { x := a, y := b, z := c, w := d })) ∧
    (∀ (F : Type) [FloatArith F],
      ((Vector2f.new : Vector2f F) = { x := FloatArith.ofInt 0, y := FloatArith.ofInt 0 }) ∧
      (∀ a : F, Vector2f.new a = { x := a, y := FloatArith.ofInt 0 }) ∧
      (∀ a b : F, Vector2f.new a b = { x := a, y := b })) ∧
    (∀ (F : Type) [FloatArith F],
      ((Vector3f.new : Vector3f F) =
        { x := FloatArith.ofInt 0, y := FloatArith.ofInt 0, z := FloatArith.ofInt 0 }) ∧
      (∀ a : F, Vector3f.new a =
        { x := a, y := FloatArith.ofInt 0, z := FloatArith.ofInt 0 }) ∧
      (∀ a b : F, Vector3f.new a b = { x := a, y := b, z := FloatArith.ofInt 0 }) ∧
      (∀ a b c : F, Vector3f.new a b c = { x := a, y := b, z := c })) ∧
    (∀ (F : Type) [FloatArith F],
      ((Vector4f.new : Vector4f F) =
        { x := FloatArith.ofInt 0, y := FloatArith.ofInt 0, z := FloatArith.ofInt 0,
          w := FloatArith.ofInt 0 }) ∧
      (∀ a : F, Vector4f.new a =
        { x := a, y := FloatArith.ofInt 0, z := FloatArith.ofInt 0,
          w := FloatArith.ofInt 0 }) ∧
      (∀ a b : F, Vector4f.new a b =
        { x := a, y := b, z := FloatArith.ofInt 0, w := FloatArith.ofInt 0 }) ∧
      (∀ a b c : F, Vector4f.new a b c =
        { x := a, y := b, z := c, w := FloatArith.ofInt 0 }) ∧
      (∀ a b c d : F, Vector4f.new a b c d = { x := a, y := b, z := c, w := d })) ∧
    ((Vector2b.new = { x := false, y := false }) ∧
      (∀ a : Bool, Vector2b.new a = { x := a, y := false }) ∧
      (∀ a b : Bool, Vector2b.new a b = { x := a, y := b })) ∧
    ((Vector3b.new = { x := false, y := false, z := false }) ∧
      (∀ a : Bool, Vector3b.new a = { x := a, y := false, z := false }) ∧
      (∀ a b : Bool, Vector3b.new a b = { x := a, y := b, z := false }) ∧
      (∀ a b c : Bool, Vector3b.new a b c = { x := a, y := b, z := c })) ∧
    ((Vector4b.new = { x := false, y := false, z := false, w := false }) ∧
      (∀ a : Bool, Vector4b.new a = { x := a, y := false, z := false, w := false }) ∧
      (∀ a b : Bool, Vector4b.new a b = { x := a, y := b, z := false, w := false }) ∧
      (∀ a b c : Bool, Vector4b.new a b c = { x := a, y := b, z := c, w := false }) ∧
      (∀ a b c d : Bool, Vector4b.new a b c d = { x := a, y := b, z := c, w := d })) :=
  ⟨⟨rfl, fun _ => rfl, fun _ _ => rfl⟩,
   ⟨rfl, fun _ => rfl, fun _ _ => rfl, fun _ _ _ => rfl⟩,
   ⟨rfl, fun _ => rfl, fun _ _ => rfl, fun _ _ _ => rfl, fun _ _ _ _ => rfl⟩,
   fun _ _ => ⟨rfl, fun _ => rfl, fun _ _ => rfl⟩,
   fun _ _ => ⟨rfl, fun _ => rfl, fun _ _ => rfl, fun _ _ _ => rfl⟩,
   fun _ _ => ⟨rfl, fun _ => rfl, fun _ _ => rfl, fun _ _ _ => rfl, fun _ _ _ _ => rfl⟩,
   ⟨rfl, fun _ => rfl, fun _ _ => rfl⟩,
   ⟨rfl, fun _ => rfl, fun _ _ => rfl, fun _ _ _ => rfl⟩,
   ⟨rfl, fun _ => rfl, fun _ _ => rfl, fun _ _ _ => rfl, fun _ _ _ _ => rfl⟩⟩

/-! ## Zero extension -/

/-- C20: under 32-bit wraparound, `Vector3i(x,y) & Vector3i(x',y')` is
`Vector2i(x,y) & Vector2i(x',y')` and `Vector4i(x,y,z) & Vector4i(x',y',z')`
is `Vector3i(x,y,z) & Vector3i(x',y',z')`, for all ints; hence the
`magnitude_sqr` of the zero-extended vector is that of the original. -/
theorem zero_extension_preserves_dot :
    (∀ x y x' y' : Int,
      (Vector3i.new x y).opAnd (Vector3i.new x' y') =
        (Vector2i.new x y).opAnd (Vector2i.new x' y')) ∧
    (∀ x y z x' y' z' : Int,
      (Vector4i.new x y z).opAnd (Vector4i.new x' y' z') =
        (Vector3i.new x y z).opAnd (Vector3i.new x' y' z')) ∧
    (∀ x y : Int, (Vector3i.new x y).magnitude_sqr = (Vector2i.new x y).magnitude_sqr) ∧
    (∀ x y z : Int,
      (Vector4i.new x y z).magnitude_sqr = (Vector3i.new x y z).magnitude_sqr) := by
  refine ⟨?_, ?_, ?_, ?_⟩
  · intro x y x' y'
    exact iadd_iadd_zero _ _
  · intro x y z x' y' z'
    exact iadd_iadd_zero _ _
  · intro x y
    exact iadd_iadd_zero _ _
  · intro x y z
    exact iadd_iadd_zero _ _

/-! ## Int arithmetic modulo `2^32`

The wrapped operations are the ring operations of `ZMod 4294967296` read back
into the signed range. -/

theorem wrapInt_modEq (z : Int) : wrapInt z ≡ z [ZMOD 4294967296] := by
  unfold Int.ModEq wrapInt
  omega

theorem wrapInt_eq_of_modEq {a b : Int} (h : a ≡ b [ZMOD 4294967296]) :
    wrapInt a = wrapInt b := by
  unfold Int.ModEq at h
  unfold wrapInt
  omega

theorem cast_wrapInt (z : Int) :
    ((wrapInt z : Int) : ZMod 4294967296) = (z : ZMod 4294967296) :=
  (ZMod.intCast_eq_intCast_iff _ _ _).2 (wrapInt_modEq z)

theorem cast_iadd (a b : Int) :
    ((iadd a b : Int) : ZMod 4294967296) = (a : ZMod 4294967296) + (b : ZMod 4294967296) := by
  unfold iadd
  rw [cast_wrapInt, Int.cast_add]

theorem cast_imul (a b : Int) :
    ((imul a b : Int) : ZMod 4294967296) = (a : ZMod 4294967296) * (b : ZMod 4294967296) := by
  unfold imul
  rw [cast_wrapInt, Int.cast_mul]

theorem wrapInt_eq_of_cast_eq {a b : Int}
    (h : (a : ZMod 4294967296) = (b : ZMod 4294967296)) : wrapInt a = wrapInt b :=
  wrapInt_eq_of_modEq ((ZMod.intCast_eq_intCast_iff _ _ _).1 h)

theorem imul_iadd (s a b : Int) : imul s (iadd a b) = iadd (imul s a) (imul s b) := by
  unfold imul iadd
  apply wrapInt_eq_of_cast_eq
  simp only [Int.cast_add, Int.cast_mul, cast_wrapInt]
  ring

theorem imul_imul (s t a : Int) : imul s (imul t a) = imul (imul s t) a := by
  unfold imul
  apply wrapInt_eq_of_cast_eq
  simp only [Int.cast_mul, cast_wrapInt]
  ring

/-! ## Linearity of the int operations -/

/-- C17: under 32-bit wraparound the int dot product is linear in its first
argument: `((s * a) + b) & c` is `s * (a & c) + (b & c)` for every int `s` and
all int vectors `a`, `b`, `c` of dimension 2, 3 or 4. -/
theorem opAnd_linear_left :
    (∀ (s : Int) (a b c : Vector2i),
      (Vector2i.opAdd (Vector2i.opMul s a) b).opAnd c =
        iadd (imul s (a.opAnd c)) (b.opAnd c)) ∧
    (∀ (s : Int) (a b c : Vector3i),
      (Vector3i.opAdd (Vector3i.opMul s a) b).opAnd c =
        iadd (imul s (a.opAnd c)) (b.opAnd c)) ∧
    (∀ (s : Int) (a b c : Vector4i),
      (Vector4i.opAdd (Vector4i.opMul s a) b).opAnd c =
        iadd (imul s (a.opAnd c)) (b.opAnd c)) := by
  refine ⟨?_, ?_, ?_⟩
  · intro s a b c
    simp only [Vector2i.opAnd, Vector2i.opAdd, Vector2i.opMul, Vector2i.new]
    unfold iadd
    apply wrapInt_eq_of_cast_eq
    simp only [Int.cast_add, Int.cast_mul, cast_wrapInt, cast_imul]
    ring
  · intro s a b c
    simp only [Vector3i.opAnd, Vector3i.opAdd, Vector3i.opMul, Vector3i.new, Vector2i.new]
    unfold iadd
    apply wrapInt_eq_of_cast_eq
    simp only [Int.cast_add, Int.cast_mul, cast_wrapInt, cast_imul]
    ring
  · intro s a b c
    simp only [Vector4i.opAnd, Vector4i.opAdd, Vector4i.opMul, Vector4i.new, Vector3i.new,
      Vector2i.new]
    unfold iadd
    apply wrapInt_eq_of_cast_eq
    simp only [Int.cast_add, Int.cast_mul, cast_wrapInt, cast_imul]
    ring

/-- C18: under 32-bit wraparound int scalar multiplication distributes over
int vector addition, `s * (a + b) = (s * a) + (s * b)`, and composes
multiplicatively, `s * (t * a) = (s * t) * a`, in dimension 2, 3 and 4. -/
theorem opMul_distrib_and_assoc :
    (∀ (s t : Int) (a b : Vector2i),
      Vector2i.opMul s (a.opAdd b) = (Vector2i.opMul s a).opAdd (Vector2i.opMul s b) ∧
      Vector2i.opMul s (Vector2i.opMul t a) = Vector2i.opMul (imul s t) a) ∧
    (∀ (s t : Int) (a b : Vector3i),
      Vector3i.opMul s (a.opAdd b) = (Vector3i.opMul s a).opAdd (Vector3i.opMul s b) ∧
      Vector3i.opMul s (Vector3i.opMul t a) = Vector3i.opMul (imul s t) a) ∧
    (∀ (s t : Int) (a b : Vector4i),
      Vector4i.opMul s (a.opAdd b) = (Vector4i.opMul s a).opAdd (Vector4i.opMul s b) ∧
      Vector4i.opMul s (Vector4i.opMul t a) = Vector4i.opMul (imul s t) a) := by
  refine ⟨?_, ?_, ?_⟩
  · intro s t a b
    simp only [Vector2i.opMul, Vector2i.opAdd, Vector2i.new, imul_iadd, imul_imul, and_self]
  · intro s t a b
    simp only [Vector3i.opMul, Vector3i.opAdd, Vector3i.new, Vector2i.new, imul_iadd,
      imul_imul, and_self]
  · intro s t a b
    simp only [Vector4i.opMul, Vector4i.opAdd, Vector4i.new, Vector3i.new, Vector2i.new,
      imul_iadd, imul_imul, and_self]

/-! ## The `y` component of the mixed product, in exact arithmetic -/

theorem mul_mul_self_eq_iff (s : Int) (y : ℚ) :
    (s : ℚ) * y * (s : ℚ) = (s : ℚ) * y ↔ y = 0 ∨ s = 0 ∨ s = 1 := by
  constructor
  · intro h
    have h0 : (s : ℚ) * y * ((s : ℚ) - 1) = 0 := by linear_combination h
    rcases mul_eq_zero.1 h0 with h1 | h1
    · rcases mul_eq_zero.1 h1 with h2 | h2
      · exact Or.inr (Or.inl (by exact_mod_cast h2))
      · exact Or.inl h2
    · exact Or.inr (Or.inr (by exact_mod_cast sub_eq_zero.1 h1))
  · rintro (h | h | h)
    · rw [h]; ring
    · rw [h]; simp
    · rw [h]; simp

/-- C19: with exact (rational) arithmetic, for every int scalar `s` and every
float vector `v` of dimension 2, 3 or 4, the mixed product `s * v` is the
vector of the products `s * v.c` if and only if `v.y = 0` or `s = 0` or
`s = 1`; `1 * v` is `v`, and `(-1) * v` negates `x`, `z` and `w` and leaves
`y` unchanged. -/
theorem mixed_opMul_plain_iff :
    (∀ (s : Int) (v : Vector2f ℚ),
      (Vector2f.opMulI s v = { x := (s : ℚ) * v.x, y := (s : ℚ) * v.y } ↔
        (v.y = 0 ∨ s = 0 ∨ s = 1)) ∧
      Vector2f.opMulI 1 v = v ∧
      Vector2f.opMulI (-1) v = { x := -v.x, y := v.y }) ∧
    (∀ (s : Int) (v : Vector3f ℚ),
      (Vector3f.opMulI s v =
          { x := (s : ℚ) * v.x, y := (s : ℚ) * v.y, z := (s : ℚ) * v.z } ↔
        (v.y = 0 ∨ s = 0 ∨ s = 1)) ∧
      Vector3f.opMulI 1 v = v ∧
      Vector3f.opMulI (-1) v = { x := -v.x, y := v.y, z := -v.z }) ∧
    (∀ (s : Int) (v : Vector4f ℚ),
      (Vector4f.opMulI s v =
          { x := (s : ℚ) * v.x, y := (s : ℚ) * v.y, z := (s : ℚ) * v.z,
            w := (s : ℚ) * v.w } ↔
        (v.y = 0 ∨ s = 0 ∨ s = 1)) ∧
      Vector4f.opMulI 1 v = v ∧
      Vector4f.opMulI (-1) v = { x := -v.x, y := v.y, z := -v.z, w := -v.w }) := by
  refine ⟨?_, ?_, ?_⟩
  · rintro s ⟨x, y⟩
    refine ⟨?_, ?_, ?_⟩
    · simp only [Vector2f.opMulI, Vector2f.new, FloatArith.mul, FloatArith.ofInt,
        Vector2f.mk.injEq, true_and]
      exact mul_mul_self_eq_iff s y
    · simp [Vector2f.opMulI, Vector2f.new, FloatArith.mul, FloatArith.ofInt]
    · simp [Vector2f.opMulI, Vector2f.new, FloatArith.mul, FloatArith.ofInt]
  · rintro s ⟨⟨x, y⟩, z⟩
    refine ⟨?_, ?_, ?_⟩
    · simp only [Vector3f.opMulI, Vector3f.new, Vector2f.new, FloatArith.mul,
        FloatArith.ofInt, Vector3f.mk.injEq, Vector2f.mk.injEq, true_and, and_true]
      exact mul_mul_self_eq_iff s y
    · simp [Vector3f.opMulI, Vector3f.new, Vector2f.new, FloatArith.mul, FloatArith.ofInt]
    · simp [Vector3f.opMulI, Vector3f.new, Vector2f.new, FloatArith.mul, FloatArith.ofInt]
  · rintro s ⟨⟨⟨x, y⟩, z⟩, w⟩
    refine ⟨?_, ?_, ?_⟩
    · simp only [Vector4f.opMulI, Vector4f.new, Vector3f.new, Vector2f.new, FloatArith.mul,
        FloatArith.ofInt, Vector4f.mk.injEq, Vector3f.mk.injEq, Vector2f.mk.injEq, true_and,
        and_true]
      exact mul_mul_self_eq_iff s y
    · simp [Vector4f.opMulI, Vector4f.new, Vector3f.new, Vector2f.new, FloatArith.mul,
        FloatArith.ofInt]
    · simp [Vector4f.opMulI, Vector4f.new, Vector3f.new, Vector2f.new, FloatArith.mul,
        FloatArith.ofInt]

/-! ## Magnitude -/

theorem exactArith_signLaws : FloatArith.SignLaws (fun q : ℚ => (q : ℝ)) := by
  refine ⟨fun a => ?_, fun a b ha hb => ?_⟩
  · simp only [FloatArith.mul]
    exact_mod_cast mul_self_nonneg a
  · simp only [FloatArith.add]
    push_cast
    exact add_nonneg ha hb

/-- C11: `magnitude(v)` is `sqrt` applied to `magnitude_sqr(v)` for every int
and float vector of dimension 2, 3 and 4.  With the square root taken exactly
over the reals, `magnitude(v) ≥ 0` and `magnitude(v)^2 = magnitude_sqr(v)`
for an int vector whose `magnitude_sqr` is computed without overflow and for
a float vector in any float arithmetic whose values read as reals with
squares and sums of non-negatives non-negative; with exact arithmetic
`magnitude(Vector2f(3,4))` is `5`.  Nothing is stated where `magnitude_sqr`
overflows: there the operand of `sqrt` can be negative. -/
theorem magnitude_is_sqrt_of_magnitude_sqr :
    ((∀ (D : Type) (sqrt : Int → D) (v : Vector2i),
        v.magnitude sqrt = sqrt v.magnitude_sqr) ∧
      (∀ (D : Type) (sqrt : Int → D) (v : Vector3i),
        v.magnitude sqrt = sqrt v.magnitude_sqr) ∧
      (∀ (D : Type) (sqrt : Int → D) (v : Vector4i),
        v.magnitude sqrt = sqrt v.magnitude_sqr) ∧
      (∀ (F D : Type) [FloatArith F] (sqrt : F → D) (v : Vector2f F),
        v.magnitude sqrt = sqrt v.magnitude_sqr) ∧
      (∀ (F D : Type) [FloatArith F] (sqrt : F → D) (v : Vector3f F),
        v.magnitude sqrt = sqrt v.magnitude_sqr) ∧
      (∀ (F D : Type) [FloatArith F] (sqrt : F → D) (v : Vector4f F),
        v.magnitude sqrt = sqrt v.magnitude_sqr)) ∧
    ((∀ v : Vector2i, v.dotFits v →
        0 ≤ v.magnitude (fun n => Real.sqrt (n : ℝ)) ∧
        v.magnitude (fun n => Real.sqrt (n : ℝ)) ^ 2 = (v.magnitude_sqr : ℝ)) ∧
      (∀ v : Vector3i, v.dotFits v →
        0 ≤ v.magnitude (fun n => Real.sqrt (n : ℝ)) ∧
        v.magnitude (fun n => Real.sqrt (n : ℝ)) ^ 2 = (v.magnitude_sqr : ℝ)) ∧
      (∀ v : Vector4i, v.dotFits v →
        0 ≤ v.magnitude (fun n => Real.sqrt (n : ℝ)) ∧
        v.magnitude (fun n => Real.sqrt (n : ℝ)) ^ 2 = (v.magnitude_sqr : ℝ))) ∧
    (∀ (F : Type) [FloatArith F] (val : F → ℝ), FloatArith.SignLaws val →
      (∀ v : Vector2f F, 0 ≤ v.magnitude (fun f => Real.sqrt (val f)) ∧
        v.magnitude (fun f => Real.sqrt (val f)) ^ 2 = val v.magnitude_sqr) ∧
      (∀ v : Vector3f F, 0 ≤ v.magnitude (fun f => Real.sqrt (val f)) ∧
        v.magnitude (fun f => Real.sqrt (val f)) ^ 2 = val v.magnitude_sqr) ∧
      (∀ v : Vector4f F, 0 ≤ v.magnitude (fun f => Real.sqrt (val f)) ∧
        v.magnitude (fun f => Real.sqrt (val f)) ^ 2 = val v.magnitude_sqr)) ∧
    Vector2f.magnitude (fun q : ℚ => Real.sqrt (q : ℝ)) (Vector2f.new 3 4) = 5 := by
  refine ⟨⟨fun _ _ _ => rfl, fun _ _ _ => rfl, fun _ _ _ => rfl, fun _ _ _ _ _ => rfl,
    fun _ _ _ _ _ => rfl, fun _ _ _ _ _ => rfl⟩, ⟨?_, ?_, ?_⟩, ?_, ?_⟩
  · intro v h
    refine ⟨Real.sqrt_nonneg _, ?_⟩
    have hx := mul_self_nonneg v.x
    have hy := mul_self_nonneg v.y
    have h0 : (0 : Int) ≤ v.opAnd v := by rw [opAnd2i_of_fits v v h]; omega
    exact Real.sq_sqrt (Int.cast_nonneg.2 h0)
  · intro v h
    refine ⟨Real.sqrt_nonneg _, ?_⟩
    have hx := mul_self_nonneg v.x
    have hy := mul_self_nonneg v.y
    have hz := mul_self_nonneg v.z
    have h0 : (0 : Int) ≤ v.opAnd v := by rw [opAnd3i_of_fits v v h]; omega
    exact Real.sq_sqrt (Int.cast_nonneg.2 h0)
  · intro v h
    refine ⟨Real.sqrt_nonneg _, ?_⟩
    have hx := mul_self_nonneg v.x
    have hy := mul_self_nonneg v.y
    have hz := mul_self_nonneg v.z
    have hw := mul_self_nonneg v.w
    have h0 : (0 : Int) ≤ v.opAnd v := by rw [opAnd4i_of_fits v v h]; omega
    exact Real.sq_sqrt (Int.cast_nonneg.2 h0)
  · intro F _ val hlaws
    obtain ⟨hsq, hadd⟩ := hlaws
    refine ⟨fun v => ⟨Real.sqrt_nonneg _, Real.sq_sqrt ?_⟩,
      fun v => ⟨Real.sqrt_nonneg _, Real.sq_sqrt ?_⟩,
      fun v => ⟨Real.sqrt_nonneg _, Real.sq_sqrt ?_⟩⟩
    · exact hadd _ _ (hsq _) (hsq _)
    · exact hadd _ _ (hadd _ _ (hsq _) (hsq _)) (hsq _)
    · exact hadd _ _ (hadd _ _ (hadd _ _ (hsq _) (hsq _)) (hsq _)) (hsq _)
  · simp only [Vector2f.magnitude, Vector2f.opAnd, Vector2f.new, FloatArith.add,
      FloatArith.mul]
    rw [Real.sqrt_eq_iff_mul_self_eq (by norm_num) (by norm_num)]
    norm_num

/-- C11 at `Vector2i(3, 4)`, `Vector3i(2, 3, 6)`, `Vector4i(1, 1, 1, 1)` and,
with exact arithmetic, `Vector2f(3, 4)`: no overflow, the sign laws hold, and
the squared magnitudes are `25`, `49`, `4` and `25`. -/
theorem magnitude_is_sqrt_of_magnitude_sqr_witness :
    ((Vector2i.new 3 4).dotFits (Vector2i.new 3 4) ∧
      0 ≤ (Vector2i.new 3 4).magnitude (fun n => Real.sqrt (n : ℝ)) ∧
      (Vector2i.new 3 4).magnitude (fun n => Real.sqrt (n : ℝ)) ^ 2 = ((25 : Int) : ℝ)) ∧
    (Vector3i.new 2 3 6).magnitude (fun n => Real.sqrt (n : ℝ)) ^ 2 = ((49 : Int) : ℝ) ∧
    (Vector4i.new 1 1 1 1).magnitude (fun n => Real.sqrt (n : ℝ)) ^ 2 = ((4 : Int) : ℝ) ∧
    (FloatArith.SignLaws (fun q : ℚ => (q : ℝ)) ∧
      (Vector2f.new (3 : ℚ) 4).magnitude (fun q : ℚ => Real.sqrt (q : ℝ)) ^ 2 =
        (((Vector2f.new (3 : ℚ) 4).magnitude_sqr : ℚ) : ℝ)) :=
  ⟨⟨by decide,
    (magnitude_is_sqrt_of_magnitude_sqr.2.1.1 (Vector2i.new 3 4) (by decide)).1,
    (magnitude_is_sqrt_of_magnitude_sqr.2.1.1 (Vector2i.new 3 4) (by decide)).2⟩,
   (magnitude_is_sqrt_of_magnitude_sqr.2.1.2.1 (Vector3i.new 2 3 6) (by decide)).2,
   (magnitude_is_sqrt_of_magnitude_sqr.2.1.2.2 (Vector4i.new 1 1 1 1) (by decide)).2,
   ⟨exactArith_signLaws,
    ((magnitude_is_sqrt_of_magnitude_sqr.2.2.1 ℚ (fun q : ℚ => (q : ℝ))
      exactArith_signLaws).1 (Vector2f.new (3 : ℚ) 4)).2⟩⟩

/-! ## Lemmas on the binary32 arithmetic -/

theorem roundHalfEven_intCast (n : Int) : roundHalfEven (n : ℚ) = n := by
  simp [roundHalfEven]

theorem ulpExponent_intCast {i : Int} (h0 : i ≠ 0) (h : |i| ≤ 16777216) :
    (-23 ≤ ulpExponent (i : ℚ) ∧ ulpExponent (i : ℚ) ≤ 0) ∨
    (ulpExponent (i : ℚ) = 1 ∧ |i| = 16777216) := by
  have hpos : (0 : ℚ) < |(i : ℚ)| := abs_pos.2 (by exact_mod_cast h0)
  have h1 : (1 : ℚ) ≤ |(i : ℚ)| := by
    have : (1 : Int) ≤ |i| := Int.one_le_abs h0
    exact_mod_cast this
  have hle : |(i : ℚ)| ≤ (2 : ℚ) ^ (24 : Int) := by
    have : ((|i| : Int) : ℚ) ≤ ((16777216 : Int) : ℚ) := by exact_mod_cast h
    rw [Int.cast_abs] at this
    norm_num at this ⊢
    exact this
  have hL0 : 0 ≤ Int.log 2 |(i : ℚ)| := by
    rw [Int.log_of_one_le_right _ h1]
    exact Int.natCast_nonneg _
  have hL24 : Int.log 2 |(i : ℚ)| ≤ 24 := by
    have := Int.log_mono_right (b := 2) hpos hle
    rwa [show ((2 : ℚ) ^ (24 : Int)) = ((2 : ℕ) : ℚ) ^ (24 : Int) by norm_num,
      Int.log_zpow (by norm_num)] at this
  unfold ulpExponent
  rcases lt_or_ge (Int.log 2 |(i : ℚ)|) 24 with hlt | hge
  · left
    omega
  · right
    have hL : Int.log 2 |(i : ℚ)| = 24 := le_antisymm hL24 hge
    refine ⟨by omega, ?_⟩
    have hz := Int.zpow_log_le_self (b := 2) (by norm_num) hpos
    rw [hL] at hz
    have : ((16777216 : Int) : ℚ) ≤ ((|i| : Int) : ℚ) := by
      rw [Int.cast_abs]
      norm_num at hz ⊢
      exact hz
    have : (16777216 : Int) ≤ |i| := by exact_mod_cast this
    omega

theorem roundBinary32_intCast {i : Int} (h : fitsFloat i) : roundBinary32 (i : ℚ) = i := by
  have habs : |i| ≤ 16777216 := abs_le.2 h
  by_cases h0 : i = 0
  · subst h0
    simp [roundBinary32, roundHalfEven]
  have key : ∃ n : Int, (i : ℚ) / 2 ^ ulpExponent (i : ℚ) = (n : ℚ) := by
    rcases ulpExponent_intCast h0 habs with ⟨h1, h2⟩ | ⟨h1, h2⟩
    · refine ⟨i * 2 ^ (-ulpExponent (i : ℚ)).toNat, ?_⟩
      have : ulpExponent (i : ℚ) = -(((-ulpExponent (i : ℚ)).toNat : ℕ) : Int) := by omega
      rw [this, zpow_neg, zpow_natCast, div_inv_eq_mul]
      push_cast
      rw [← this]
    · rw [h1]
      rcases abs_eq (by norm_num : (0 : Int) ≤ 16777216) |>.1 h2 with h3 | h3
      · exact ⟨8388608, by rw [h3]; norm_num⟩
      · exact ⟨-8388608, by rw [h3]; norm_num⟩
  obtain ⟨n, hn⟩ := key
  unfold roundBinary32
  rw [hn, roundHalfEven_intCast, ← hn]
  have : (2 : ℚ) ^ ulpExponent (i : ℚ) ≠ 0 := zpow_ne_zero _ (by norm_num)
  field_simp

theorem cround_intCast (n : Int) : cround (n : ℚ) = n := by
  unfold cround
  split
  · have : ⌊(n : ℚ) + 1 / 2⌋ = n := by
      rw [Int.floor_eq_iff]
      constructor <;> norm_num
    rw [this]
  · have : ⌈(n : ℚ) - 1 / 2⌉ = n := by
      rw [Int.ceil_eq_iff]
      constructor <;> norm_num
    rw [this]

theorem truncToInt_intCast {n : Int} (h : isInt32 n) : truncToInt (n : ℚ) = n := by
  unfold truncToInt
  split
  · rw [Int.floor_intCast]
    exact wrapInt_of_isInt32 h
  · rw [Int.ceil_intCast]
    exact wrapInt_of_isInt32 h

theorem roundtrip_component {i : Int} (h : fitsFloat i) :
    (FloatArith.ofInt i : Binary32).val = i ∧
    FloatRound.toInt (FloatRound.round (FloatArith.ofInt i : Binary32)) = i := by
  have hv : (FloatArith.ofInt i : Binary32).val = i := roundBinary32_intCast h
  refine ⟨hv, ?_⟩
  show truncToInt (cround (FloatArith.ofInt i : Binary32).val) = i
  rw [hv, cround_intCast]
  apply truncToInt_intCast
  unfold fitsFloat at h
  unfold isInt32
  omega

theorem roundBinary32_16777217 : roundBinary32 16777217 = 16777216 := by
  have hlog : Int.log 2 |(16777217 : ℚ)| = 24 := by
    rw [abs_of_nonneg (by norm_num), Int.log_ofNat]
    have : Nat.log 2 16777217 = 24 :=
      Nat.log_eq_of_pow_le_of_lt_pow (by norm_num) (by norm_num)
    rw [this]
    rfl
  have he : ulpExponent 16777217 = 1 := by
    unfold ulpExponent
    rw [hlog]
    rfl
  have hfloor : ⌊(16777217 : ℚ) / 2⌋ = 8388608 := by
    rw [Int.floor_eq_iff]
    constructor <;> norm_num
  unfold roundBinary32
  rw [he]
  unfold roundHalfEven
  simp only [zpow_one, hfloor]
  norm_num

theorem cround_spec (q : ℚ) :
    ∃ n : Int, cround q = n ∧ |(n : ℚ) - q| ≤ 1 / 2 ∧ (inIntRange q → isInt32 n) := by
  unfold cround inIntRange isInt32
  split
  · rename_i h0
    refine ⟨⌊q + 1 / 2⌋, rfl, ?_, ?_⟩
    · have h1 := Int.floor_le (q + 1 / 2)
      have h2 := Int.lt_floor_add_one (q + 1 / 2)
      rw [abs_le]
      constructor <;> linarith
    · rintro ⟨_, hhi⟩
      have h1 := Int.floor_le (q + 1 / 2)
      have h3 : (0 : Int) ≤ ⌊q + 1 / 2⌋ := Int.floor_nonneg.2 (by linarith)
      have h4 : ((⌊q + 1 / 2⌋ : Int) : ℚ) < ((2147483648 : Int) : ℚ) := by
        push_cast
        linarith
      have h5 : ⌊q + 1 / 2⌋ < 2147483648 := by exact_mod_cast h4
      omega
  · rename_i h0
    have hneg : q < 0 := not_le.1 h0
    refine ⟨⌈q - 1 / 2⌉, rfl, ?_, ?_⟩
    · have h1 := Int.le_ceil (q - 1 / 2)
      have h2 := Int.ceil_lt_add_one (q - 1 / 2)
      rw [abs_le]
      constructor <;> linarith
    · rintro ⟨hlo, _⟩
      have h1 := Int.le_ceil (q - 1 / 2)
      have h2 := Int.ceil_lt_add_one (q - 1 / 2)
      have h4 : ((-2147483649 : Int) : ℚ) < ((⌈q - 1 / 2⌉ : Int) : ℚ) := by
        push_cast
        linarith
      have h5 : -2147483649 < ⌈q - 1 / 2⌉ := by exact_mod_cast h4
      have h6 : ((⌈q - 1 / 2⌉ : Int) : ℚ) < ((1 : Int) : ℚ) := by
        push_cast
        linarith
      have h7 : ⌈q - 1 / 2⌉ < 1 := by exact_mod_cast h6
      omega

theorem toInt_round_nearest (a : Binary32) (h : inIntRange a.val) :
    |((FloatRound.toInt (FloatRound.round a) : Int) : ℚ) - a.val| ≤ 1 / 2 := by
  obtain ⟨n, hn, hnear, hrange⟩ := cround_spec a.val
  have : FloatRound.toInt (FloatRound.round a) = n := by
    show truncToInt (cround a.val) = n
    rw [hn]
    exact truncToInt_intCast (hrange h)
  rw [this]
  exact hnear

theorem toInt_round_tie {n : Int} (h0 : 0 ≤ n) (h1 : n < 2147483647) :
    FloatRound.toInt (FloatRound.round (⟨(n : ℚ) + 1 / 2⟩ : Binary32)) = n + 1 ∧
    FloatRound.toInt (FloatRound.round (⟨-((n : ℚ) + 1 / 2)⟩ : Binary32)) = -(n + 1) := by
  have hn : (0 : ℚ) ≤ (n : ℚ) := by exact_mod_cast h0
  constructor
  · show truncToInt (cround ((n : ℚ) + 1 / 2)) = n + 1
    have hc : cround ((n : ℚ) + 1 / 2) = ((n + 1 : Int) : ℚ) := by
      unfold cround
      rw [if_pos (by linarith)]
      have : ⌊(n : ℚ) + 1 / 2 + 1 / 2⌋ = n + 1 := by
        rw [Int.floor_eq_iff]
        push_cast
        constructor <;> linarith
      rw [this]
    rw [hc]
    apply truncToInt_intCast
    unfold isInt32
    omega
  · show truncToInt (cround (-((n : ℚ) + 1 / 2))) = -(n + 1)
    have hc : cround (-((n : ℚ) + 1 / 2)) = ((-(n + 1) : Int) : ℚ) := by
      unfold cround
      rw [if_neg (by linarith)]
      have : ⌈-((n : ℚ) + 1 / 2) - 1 / 2⌉ = -(n + 1) := by
        rw [Int.ceil_eq_iff]
        push_cast
        constructor <;> linarith
      rw [this]
    rw [hc]
    apply truncToInt_intCast
    unfold isInt32
    omega

/-! ## Conversions -/

/-- C14: in the binary32 arithmetic, for every int vector of dimension 2, 3
or 4 whose components are at most `2^24` in absolute value, each component of
`vecitof(v)` has the value of the corresponding component of `v`, and
`vecftoi(vecitof(v))` is `v`; `vecitof(Vector2i(3,4))` is `Vector2f(3, 4)`.
The bound matters: `(float)16777217` is `16777216`. -/
theorem vecitof_lossless_and_roundtrip :
    (∀ v : Vector2i, fitsFloat v.x → fitsFloat v.y →
      ((v.vecitof : Vector2f Binary32).x.val = v.x ∧
        (v.vecitof : Vector2f Binary32).y.val = v.y) ∧
      (v.vecitof : Vector2f Binary32).vecftoi = v) ∧
    (∀ v : Vector3i, fitsFloat v.x → fitsFloat v.y → fitsFloat v.z →
      ((v.vecitof : Vector3f Binary32).x.val = v.x ∧
        (v.vecitof : Vector3f Binary32).y.val = v.y ∧
        (v.vecitof : Vector3f Binary32).z.val = v.z) ∧
      (v.vecitof : Vector3f Binary32).vecftoi = v) ∧
    (∀ v : Vector4i, fitsFloat v.x → fitsFloat v.y → fitsFloat v.z → fitsFloat v.w →
      ((v.vecitof : Vector4f Binary32).x.val = v.x ∧
        (v.vecitof : Vector4f Binary32).y.val = v.y ∧
        (v.vecitof : Vector4f Binary32).z.val = v.z ∧
        (v.vecitof : Vector4f Binary32).w.val = v.w) ∧
      (v.vecitof : Vector4f Binary32).vecftoi = v) ∧
    (Vector2i.new 3 4).vecitof = Vector2f.new (⟨3⟩ : Binary32) ⟨4⟩ ∧
    (FloatArith.ofInt 16777217 : Binary32).val = 16777216 := by
  refine ⟨?_, ?_, ?_, ?_, roundBinary32_16777217⟩
  · rintro ⟨x, y⟩ hx hy
    refine ⟨⟨(roundtrip_component hx).1, (roundtrip_component hy).1⟩, ?_⟩
    simp only [Vector2f.vecftoi, Vector2i.vecitof, Vector2f.new, Vector2i.new,
      (roundtrip_component hx).2, (roundtrip_component hy).2]
  · rintro ⟨⟨x, y⟩, z⟩ hx hy hz
    refine ⟨⟨(roundtrip_component hx).1, (roundtrip_component hy).1,
      (roundtrip_component hz).1⟩, ?_⟩
    simp only [Vector3f.vecftoi, Vector3i.vecitof, Vector3f.new, Vector2f.new, Vector3i.new,
      Vector2i.new, (roundtrip_component hx).2, (roundtrip_component hy).2,
      (roundtrip_component hz).2]
  · rintro ⟨⟨⟨x, y⟩, z⟩, w⟩ hx hy hz hw
    refine ⟨⟨(roundtrip_component hx).1, (roundtrip_component hy).1,
      (roundtrip_component hz).1, (roundtrip_component hw).1⟩, ?_⟩
    simp only [Vector4f.vecftoi, Vector4i.vecitof, Vector4f.new, Vector3f.new, Vector2f.new,
      Vector4i.new, Vector3i.new, Vector2i.new, (roundtrip_component hx).2,
      (roundtrip_component hy).2, (roundtrip_component hz).2, (roundtrip_component hw).2]
  · have h3 : (FloatArith.ofInt 3 : Binary32) = ⟨3⟩ :=
      congrArg Binary32.mk (roundBinary32_intCast (i := 3) (by decide))
    have h4 : (FloatArith.ofInt 4 : Binary32) = ⟨4⟩ :=
      congrArg Binary32.mk (roundBinary32_intCast (i := 4) (by decide))
    simp only [Vector2i.vecitof, Vector2i.new, Vector2f.new, h3, h4]

/-- C14 at `Vector2i(3, 4)`, `Vector3i(-16777216, 0, 16777216)` and
`Vector4i(1, -2, 1000000, -999)`. -/
theorem vecitof_lossless_and_roundtrip_witness :
    ((fitsFloat 3 ∧ fitsFloat 4) ∧
      ((Vector2i.new 3 4).vecitof : Vector2f Binary32).vecftoi = Vector2i.new 3 4) ∧
    ((fitsFloat (-16777216) ∧ fitsFloat 0 ∧ fitsFloat 16777216) ∧
      ((Vector3i.new (-16777216) 0 16777216).vecitof : Vector3f Binary32).vecftoi =
        Vector3i.new (-16777216) 0 16777216) ∧
    ((Vector4i.new 1 (-2) 1000000 (-999)).vecitof : Vector4f Binary32).w.val =
      ((-999 : Int) : ℚ) :=
  ⟨⟨⟨by decide, by decide⟩,
    (vecitof_lossless_and_roundtrip.1 (Vector2i.new 3 4) (by decide) (by decide)).2⟩,
   ⟨⟨by decide, by decide, by decide⟩,
    (vecitof_lossless_and_roundtrip.2.1 (Vector3i.new (-16777216) 0 16777216)
      (by decide) (by decide) (by decide)).2⟩,
   (vecitof_lossless_and_roundtrip.2.2.1 (Vector4i.new 1 (-2) 1000000 (-999))
      (by decide) (by decide) (by decide) (by decide)).1.2.2.2⟩

/-- C15: every component of `vecftoi(v)` is `(int)round` of the component of
`v` (dimension 2, 3 and 4); for a binary32 vector whose components lie within
the `int` range it differs from that component by at most `1/2`; and a
halfway value goes away from zero: `n + 1/2` to `n + 1` and `-(n + 1/2)` to
`-(n + 1)` for `0 ≤ n`, so `0.5`, `-0.5` and `2.5` go to `1`, `-1` and `3`. -/
theorem vecftoi_rounds_to_nearest :
    ((∀ (F : Type) [FloatRound F] (v : Vector2f F),
        v.vecftoi.x = FloatRound.toInt (FloatRound.round v.x) ∧
        v.vecftoi.y = FloatRound.toInt (FloatRound.round v.y)) ∧
      (∀ (F : Type) [FloatRound F] (v : Vector3f F),
        v.vecftoi.x = FloatRound.toInt (FloatRound.round v.x) ∧
        v.vecftoi.y = FloatRound.toInt (FloatRound.round v.y) ∧
        v.vecftoi.z = FloatRound.toInt (FloatRound.round v.z)) ∧
      (∀ (F : Type) [FloatRound F] (v : Vector4f F),
        v.vecftoi.x = FloatRound.toInt (FloatRound.round v.x) ∧
        v.vecftoi.y = FloatRound.toInt (FloatRound.round v.y) ∧
        v.vecftoi.z = FloatRound.toInt (FloatRound.round v.z) ∧
        v.vecftoi.w = FloatRound.toInt (FloatRound.round v.w))) ∧
    ((∀ v : Vector2f Binary32, inIntRange v.x.val → inIntRange v.y.val →
        |(v.vecftoi.x : ℚ) - v.x.val| ≤ 1 / 2 ∧ |(v.vecftoi.y : ℚ) - v.y.val| ≤ 1 / 2) ∧
      (∀ v : Vector3f Binary32, inIntRange v.x.val → inIntRange v.y.val →
        inIntRange v.z.val →
        |(v.vecftoi.x : ℚ) - v.x.val| ≤ 1 / 2 ∧ |(v.vecftoi.y : ℚ) - v.y.val| ≤ 1 / 2 ∧
        |(v.vecftoi.z : ℚ) - v.z.val| ≤ 1 / 2) ∧
      (∀ v : Vector4f Binary32, inIntRange v.x.val → inIntRange v.y.val →
        inIntRange v.z.val → inIntRange v.w.val →
        |(v.vecftoi.x : ℚ) - v.x.val| ≤ 1 / 2 ∧ |(v.vecftoi.y : ℚ) - v.y.val| ≤ 1 / 2 ∧
        |(v.vecftoi.z : ℚ) - v.z.val| ≤ 1 / 2 ∧ |(v.vecftoi.w : ℚ) - v.w.val| ≤ 1 / 2)) ∧
    (∀ n : Int, 0 ≤ n → n < 2147483647 →
      FloatRound.toInt (FloatRound.round (⟨(n : ℚ) + 1 / 2⟩ : Binary32)) = n + 1 ∧
      FloatRound.toInt (FloatRound.round (⟨-((n : ℚ) + 1 / 2)⟩ : Binary32)) = -(n + 1)) ∧
    Vector3f.vecftoi (Vector3f.new (⟨1 / 2⟩ : Binary32) ⟨-(1 / 2)⟩ ⟨5 / 2⟩) =
      Vector3i.new 1 (-1) 3 := by
  refine ⟨⟨fun _ _ _ => ⟨rfl, rfl⟩, fun _ _ _ => ⟨rfl, rfl, rfl⟩,
    fun _ _ _ => ⟨rfl, rfl, rfl, rfl⟩⟩, ⟨?_, ?_, ?_⟩, fun n h0 h1 => toInt_round_tie h0 h1, ?_⟩
  · intro v hx hy
    exact ⟨toInt_round_nearest v.x hx, toInt_round_nearest v.y hy⟩
  · intro v hx hy hz
    exact ⟨toInt_round_nearest v.x hx, toInt_round_nearest v.y hy,
      toInt_round_nearest v.z hz⟩
  · intro v hx hy hz hw
    exact ⟨toInt_round_nearest v.x hx, toInt_round_nearest v.y hy,
      toInt_round_nearest v.z hz, toInt_round_nearest v.w hw⟩
  · have hx : FloatRound.toInt (FloatRound.round (⟨1 / 2⟩ : Binary32)) = 1 := by
      have := (toInt_round_tie (n := 0) (by decide) (by decide)).1
      simpa using this
    have hy : FloatRound.toInt (FloatRound.round (⟨-(1 / 2)⟩ : Binary32)) = -1 := by
      have := (toInt_round_tie (n := 0) (by decide) (by decide)).2
      simpa using this
    have hz : FloatRound.toInt (FloatRound.round (⟨5 / 2⟩ : Binary32)) = 3 := by
      have := (toInt_round_tie (n := 2) (by decide) (by decide)).1
      norm_num at this
      exact this
    simp only [Vector3f.vecftoi, Vector3f.new, Vector2f.new, Vector3i.new, Vector2i.new, hx,
      hy, hz]

/-- C15 at `Vector2f(7/4, -2147483648)`, whose components lie within the
`int` range, and at the halfway values `41.5` and `-41.5`. -/
theorem vecftoi_rounds_to_nearest_witness :
    ((inIntRange (7 / 4) ∧ inIntRange (-2147483648)) ∧
      |((Vector2f.new (⟨7 / 4⟩ : Binary32) ⟨-2147483648⟩).vecftoi.x : ℚ) - 7 / 4| ≤ 1 / 2) ∧
    (((0 : Int) ≤ 41 ∧ (41 : Int) < 2147483647) ∧
      FloatRound.toInt (FloatRound.round (⟨((41 : Int) : ℚ) + 1 / 2⟩ : Binary32)) = 41 + 1 ∧
      FloatRound.toInt (FloatRound.round (⟨-(((41 : Int) : ℚ) + 1 / 2)⟩ : Binary32)) =
        -(41 + 1)) :=
  ⟨⟨⟨by norm_num [inIntRange], by norm_num [inIntRange]⟩,
    (vecftoi_rounds_to_nearest.2.1.1 (Vector2f.new (⟨7 / 4⟩ : Binary32) ⟨-2147483648⟩)
      (by norm_num [inIntRange, Vector2f.new])
      (by norm_num [inIntRange, Vector2f.new])).1⟩,
   ⟨⟨by decide, by decide⟩, vecftoi_rounds_to_nearest.2.2.1 41 (by decide) (by decide)⟩⟩

/-! ## Addition: identity -/

theorem representable_intCast {i : Int} (h : fitsFloat i) :
    (⟨(i : ℚ)⟩ : Binary32).representable :=
  roundBinary32_intCast h

theorem representable_half : (⟨1 / 2⟩ : Binary32).representable := by
  have hlog : Int.log 2 |(1 / 2 : ℚ)| = -1 := by
    rw [abs_of_nonneg (by norm_num),
      show (1 / 2 : ℚ) = ((2 : ℕ) : ℚ) ^ (-1 : Int) by norm_num, Int.log_zpow (by norm_num)]
  have he : ulpExponent (1 / 2) = -24 := by
    unfold ulpExponent
    rw [hlog]
    rfl
  have hq : (1 / 2 : ℚ) / 2 ^ (-24 : Int) = ((8388608 : Int) : ℚ) := by norm_num
  show roundBinary32 (1 / 2) = 1 / 2
  unfold roundBinary32
  rw [he, hq, roundHalfEven_intCast]
  norm_num

theorem binary32_ofInt_zero : (FloatArith.ofInt 0 : Binary32) = ⟨0⟩ := by
  have h : roundBinary32 ((0 : Int) : ℚ) = ((0 : Int) : ℚ) :=
    roundBinary32_intCast (by decide)
  show (⟨roundBinary32 ((0 : Int) : ℚ)⟩ : Binary32) = ⟨0⟩
  rw [h, Int.cast_zero]

theorem binary32_add_zero {a : Binary32} (h : a.representable) :
    FloatArith.add a (FloatArith.ofInt 0) = a ∧ FloatArith.add (FloatArith.ofInt 0) a = a := by
  rw [binary32_ofInt_zero]
  obtain ⟨q⟩ := a
  have hq : roundBinary32 q = q := h
  constructor
  · show (⟨roundBinary32 (q + 0)⟩ : Binary32) = ⟨q⟩
    rw [add_zero, hq]
  · show (⟨roundBinary32 (0 + q)⟩ : Binary32) = ⟨q⟩
    rw [zero_add, hq]

theorem exact_add_zero (a : ℚ) :
    FloatArith.add a (FloatArith.ofInt 0) = a ∧ FloatArith.add (FloatArith.ofInt 0) a = a := by
  simp [FloatArith.add, FloatArith.ofInt]

/-- C12: for every int vector `v` of dimension 2, 3 or 4 (components in the
`int` range), `v + Z` and `Z + v` are `v`, where `Z` is the default-constructed
vector; the same holds for every float vector in exact arithmetic and, in the
binary32 arithmetic, for every float vector whose components are binary32
values.  A component that is no binary32 value is not kept:
`16777217 + 0` is `16777216`. -/
theorem opAdd_default_identity :
    (∀ v : Vector2i, v.valid →
      Vector2i.opAdd v Vector2i.new = v ∧ Vector2i.opAdd Vector2i.new v = v) ∧
    (∀ v : Vector3i, v.valid →
      Vector3i.opAdd v Vector3i.new = v ∧ Vector3i.opAdd Vector3i.new v = v) ∧
    (∀ v : Vector4i, v.valid →
      Vector4i.opAdd v Vector4i.new = v ∧ Vector4i.opAdd Vector4i.new v = v) ∧
    ((∀ v : Vector2f ℚ,
        Vector2f.opAdd v Vector2f.new = v ∧ Vector2f.opAdd Vector2f.new v = v) ∧
      (∀ v : Vector3f ℚ,
        Vector3f.opAdd v Vector3f.new = v ∧ Vector3f.opAdd Vector3f.new v = v) ∧
      (∀ v : Vector4f ℚ,
        Vector4f.opAdd v Vector4f.new = v ∧ Vector4f.opAdd Vector4f.new v = v)) ∧
    ((∀ v : Vector2f Binary32, v.x.representable → v.y.representable →
        Vector2f.opAdd v Vector2f.new = v ∧ Vector2f.opAdd Vector2f.new v = v) ∧
      (∀ v : Vector3f Binary32, v.x.representable → v.y.representable →
        v.z.representable →
        Vector3f.opAdd v Vector3f.new = v ∧ Vector3f.opAdd Vector3f.new v = v) ∧
      (∀ v : Vector4f Binary32, v.x.representable → v.y.representable →
        v.z.representable → v.w.representable →
        Vector4f.opAdd v Vector4f.new = v ∧ Vector4f.opAdd Vector4f.new v = v)) ∧
    FloatArith.add (⟨16777217⟩ : Binary32) (FloatArith.ofInt 0) = ⟨16777216⟩ := by
  refine ⟨?_, ?_, ?_, ⟨?_, ?_, ?_⟩, ⟨?_, ?_, ?_⟩, ?_⟩
  · rintro ⟨x, y⟩ ⟨hx, hy⟩
    simp only [Vector2i.opAdd, Vector2i.new, iadd_zero_of_isInt32 hx, iadd_zero_of_isInt32 hy,
      zero_iadd_of_isInt32 hx, zero_iadd_of_isInt32 hy, and_self]
  · rintro ⟨⟨x, y⟩, z⟩ ⟨hx, hy, hz⟩
    simp only [Vector3i.opAdd, Vector3i.new, Vector2i.new, iadd_zero_of_isInt32 hx,
      iadd_zero_of_isInt32 hy, iadd_zero_of_isInt32 hz, zero_iadd_of_isInt32 hx,
      zero_iadd_of_isInt32 hy, zero_iadd_of_isInt32 hz, and_self]
  · rintro ⟨⟨⟨x, y⟩, z⟩, w⟩ ⟨hx, hy, hz, hw⟩
    simp only [Vector4i.opAdd, Vector4i.new, Vector3i.new, Vector2i.new,
      iadd_zero_of_isInt32 hx, iadd_zero_of_isInt32 hy, iadd_zero_of_isInt32 hz,
      iadd_zero_of_isInt32 hw, zero_iadd_of_isInt32 hx, zero_iadd_of_isInt32 hy,
      zero_iadd_of_isInt32 hz, zero_iadd_of_isInt32 hw, and_self]
  · rintro ⟨x, y⟩
    simp only [Vector2f.opAdd, Vector2f.new, (exact_add_zero _).1, (exact_add_zero _).2,
      and_self]
  · rintro ⟨⟨x, y⟩, z⟩
    simp only [Vector3f.opAdd, Vector3f.new, Vector2f.new, (exact_add_zero _).1,
      (exact_add_zero _).2, and_self]
  · rintro ⟨⟨⟨x, y⟩, z⟩, w⟩
    simp only [Vector4f.opAdd, Vector4f.new, Vector3f.new, Vector2f.new, (exact_add_zero _).1,
      (exact_add_zero _).2, and_self]
  · rintro ⟨x, y⟩ hx hy
    simp only [Vector2f.opAdd, Vector2f.new, (binary32_add_zero hx).1, (binary32_add_zero hx).2,
      (binary32_add_zero hy).1, (binary32_add_zero hy).2, and_self]
  · rintro ⟨⟨x, y⟩, z⟩ hx hy hz
    simp only [Vector3f.opAdd, Vector3f.new, Vector2f.new, (binary32_add_zero hx).1,
      (binary32_add_zero hx).2, (binary32_add_zero hy).1, (binary32_add_zero hy).2,
      (binary32_add_zero hz).1, (binary32_add_zero hz).2, and_self]
  · rintro ⟨⟨⟨x, y⟩, z⟩, w⟩ hx hy hz hw
    simp only [Vector4f.opAdd, Vector4f.new, Vector3f.new, Vector2f.new,
      (binary32_add_zero hx).1, (binary32_add_zero hx).2, (binary32_add_zero hy).1,
      (binary32_add_zero hy).2, (binary32_add_zero hz).1, (binary32_add_zero hz).2,
      (binary32_add_zero hw).1, (binary32_add_zero hw).2, and_self]
  · rw [binary32_ofInt_zero]
    show (⟨roundBinary32 (16777217 + 0)⟩ : Binary32) = ⟨16777216⟩
    rw [add_zero, roundBinary32_16777217]

/-- C12 at `Vector2i(5, -7)`, `Vector3i(2147483647, 0, -2147483648)`,
`Vector4i(1, 2, 3, 4)` and the binary32 vector `Vector3f(1/2, -3, 16777216)`,
whose components are binary32 values. -/
theorem opAdd_default_identity_witness :
    ((Vector2i.new 5 (-7)).valid ∧
      Vector2i.opAdd (Vector2i.new 5 (-7)) Vector2i.new = Vector2i.new 5 (-7)) ∧
    ((Vector3i.new 2147483647 0 (-2147483648)).valid ∧
      Vector3i.opAdd Vector3i.new (Vector3i.new 2147483647 0 (-2147483648)) =
        Vector3i.new 2147483647 0 (-2147483648)) ∧
    Vector4i.opAdd (Vector4i.new 1 2 3 4) Vector4i.new = Vector4i.new 1 2 3 4 ∧
    (((⟨1 / 2⟩ : Binary32).representable ∧ (⟨((-3 : Int) : ℚ)⟩ : Binary32).representable ∧
        (⟨((16777216 : Int) : ℚ)⟩ : Binary32).representable) ∧
      Vector3f.opAdd
          (Vector3f.new (⟨1 / 2⟩ : Binary32) ⟨((-3 : Int) : ℚ)⟩ ⟨((16777216 : Int) : ℚ)⟩)
          Vector3f.new =
        Vector3f.new (⟨1 / 2⟩ : Binary32) ⟨((-3 : Int) : ℚ)⟩ ⟨((16777216 : Int) : ℚ)⟩ ∧
      Vector3f.opAdd Vector3f.new
          (Vector3f.new (⟨1 / 2⟩ : Binary32) ⟨((-3 : Int) : ℚ)⟩ ⟨((16777216 : Int) : ℚ)⟩) =
        Vector3f.new (⟨1 / 2⟩ : Binary32) ⟨((-3 : Int) : ℚ)⟩ ⟨((16777216 : Int) : ℚ)⟩) :=
  ⟨⟨by decide, (opAdd_default_identity.1 _ (by decide)).1⟩,
   ⟨by decide, (opAdd_default_identity.2.1 _ (by decide)).2⟩,
   (opAdd_default_identity.2.2.1 _ (by decide)).1,
   ⟨⟨representable_half, representable_intCast (by decide),
      representable_intCast (by decide)⟩,
    opAdd_default_identity.2.2.2.2.1.2.1
      (Vector3f.new (⟨1 / 2⟩ : Binary32) ⟨((-3 : Int) : ℚ)⟩ ⟨((16777216 : Int) : ℚ)⟩)
      representable_half (representable_intCast (by decide))
      (representable_intCast (by decide))⟩⟩

end V
